import Mathlib

/-!
Verification development for the extension-hours tracking repository
(`src/utils/db.py`, `src/utils/auth.py`, `src/utils/microsoft_auth.py`,
`src/pages/5_Administradores.py`).

The Python data-access layer is shallowly embedded: tables become lists of
typed rows, the DuckDB sequences become explicit counters, audit snapshots
become ordered key/value objects mirroring the Python dicts that are
`json.dumps`-ed, and `st.session_state` becomes a key/value map. Machine
integers never overflow here (ids are unbounded in the source as well); the
32-bit arithmetic of SHA-256 is modelled on `Nat` with explicit reduction
modulo 2^32. Wall-clock timestamps (`datetime.now()`) are outside the model
and omitted from audit rows; `os.urandom(16)` salt draws are modelled by
passing the drawn bytes as an explicit argument.
-/

/-! ## Bytes and 32-bit arithmetic (for `hashlib.pbkdf2_hmac('sha256', ...)`) -/

/-- Reduce modulo 2^32, the implicit word size of SHA-256 arithmetic. -/
def w32 (x : Nat) : Nat := x % 4294967296

/-- Right rotation of a 32-bit word by `n` places. -/
def rotr32 (n x : Nat) : Nat := w32 (x / 2 ^ n + x % 2 ^ n * 2 ^ (32 - n))

/-- Logical right shift. -/
def shr32 (n x : Nat) : Nat := x / 2 ^ n

/-- Addition modulo 2^32. -/
def add32 (a b : Nat) : Nat := w32 (a + b)

/-- Bitwise complement within 32 bits. -/
def not32 (x : Nat) : Nat := Nat.xor x 4294967295

/-- SHA-256 choice function. -/
def shaCh (x y z : Nat) : Nat := Nat.xor (Nat.land x y) (Nat.land (not32 x) z)

/-- SHA-256 majority function. -/
def shaMaj (x y z : Nat) : Nat :=
  Nat.xor (Nat.xor (Nat.land x y) (Nat.land x z)) (Nat.land y z)

/-- SHA-256 big sigma 0. -/
def bsig0 (x : Nat) : Nat := Nat.xor (Nat.xor (rotr32 2 x) (rotr32 13 x)) (rotr32 22 x)

/-- SHA-256 big sigma 1. -/
def bsig1 (x : Nat) : Nat := Nat.xor (Nat.xor (rotr32 6 x) (rotr32 11 x)) (rotr32 25 x)

/-- SHA-256 small sigma 0. -/
def ssig0 (x : Nat) : Nat := Nat.xor (Nat.xor (rotr32 7 x) (rotr32 18 x)) (shr32 3 x)

/-- SHA-256 small sigma 1. -/
def ssig1 (x : Nat) : Nat := Nat.xor (Nat.xor (rotr32 17 x) (rotr32 19 x)) (shr32 10 x)

/-- The 64 SHA-256 round constants. -/
def shaK : List Nat :=
  [1116352408, 1899447441, 3049323471, 3921009573, 961987163, 1508970993,
   2453635748, 2870763221, 3624381080, 310598401, 607225278, 1426881987,
   1925078388, 2162078206, 2614888103, 3248222580, 3835390401, 4022224774,
   264347078, 604807628, 770255983, 1249150122, 1555081692, 1996064986,
   2554220882, 2821834349, 2952996808, 3210313671, 3336571891, 3584528711,
   113926993, 338241895, 666307205, 773529912, 1294757372, 1396182291,
   1695183700, 1986661051, 2177026350, 2456956037, 2730485921, 2820302411,
   3259730800, 3345764771, 3516065817, 3600352804, 4094571909, 275423344,
   430227734, 506948616, 659060556, 883997877, 958139571, 1322822218,
   1537002063, 1747873779, 1955562222, 2024104815, 2227730452, 2361852424,
   2428436474, 2756734187, 3204031479, 3329325298]

/-- Working state of the compression function: the eight 32-bit registers. -/
structure Hash8 where
  a : Nat
  b : Nat
  c : Nat
  d : Nat
  e : Nat
  f : Nat
  g : Nat
  h : Nat
deriving DecidableEq, Repr

/-- Pad a message per SHA-256: append 0x80, zeros to 56 mod 64, and the
64-bit big-endian bit length. -/
def sha256Pad (msg : List Nat) : List Nat :=
  let L := msg.length
  let k := (64 + 56 - (L + 1) % 64) % 64
  msg ++ [128] ++ List.replicate k 0 ++
    (List.range 8).map (fun i => 8 * L / 2 ^ (8 * (7 - i)) % 256)

/-- Split a byte list into 64-byte blocks (fuelled to keep recursion structural). -/
def chunk64Go (fuel : Nat) (l : List Nat) : List (List Nat) :=
  match fuel, l with
  | 0, _ => []
  | _, [] => []
  | fuel + 1, l => l.take 64 :: chunk64Go fuel (l.drop 64)

/-- Split a byte list into 64-byte blocks. -/
def chunk64 (l : List Nat) : List (List Nat) := chunk64Go l.length l

/-- Big-endian 32-bit words from bytes. -/
def bytesToWords (b : List Nat) : List Nat :=
  (List.range (b.length / 4)).map fun i =>
    b.getD (4 * i) 0 * 16777216 + b.getD (4 * i + 1) 0 * 65536 +
      b.getD (4 * i + 2) 0 * 256 + b.getD (4 * i + 3) 0

/-- Extend the 16-word message schedule to 64 words, one word per step. -/
def schedGo (n : Nat) (w : List Nat) : List Nat :=
  match n with
  | 0 => w
  | n + 1 =>
    let t := w.length
    schedGo n (w ++ [add32 (add32 (ssig1 (w.getD (t - 2) 0)) (w.getD (t - 7) 0))
                         (add32 (ssig0 (w.getD (t - 15) 0)) (w.getD (t - 16) 0))])

/-- One round of the SHA-256 compression function. -/
def shaRound (st : Hash8) (wi ki : Nat) : Hash8 :=
  let t1 := add32 (add32 (add32 st.h (bsig1 st.e)) (add32 (shaCh st.e st.f st.g) ki)) wi
  let t2 := add32 (bsig0 st.a) (shaMaj st.a st.b st.c)
  ⟨add32 t1 t2, st.a, st.b, st.c, add32 st.d t1, st.e, st.f, st.g⟩

/-- Compress one 64-byte block into the running state. -/
def compressBlock (st : Hash8) (block : List Nat) : Hash8 :=
  let w := schedGo 48 (bytesToWords block)
  let r := (w.zip shaK).foldl (fun s p => shaRound s p.1 p.2) st
  ⟨add32 st.a r.a, add32 st.b r.b, add32 st.c r.c, add32 st.d r.d,
   add32 st.e r.e, add32 st.f r.f, add32 st.g r.g, add32 st.h r.h⟩

/-- Big-endian bytes of a 32-bit word. -/
def wordBytes (x : Nat) : List Nat :=
  [x / 16777216 % 256, x / 65536 % 256, x / 256 % 256, x % 256]

/-- SHA-256 of a byte string. -/
def sha256 (msg : List Nat) : List Nat :=
  let st := (chunk64 (sha256Pad msg)).foldl compressBlock
    ⟨1779033703, 3144134277, 1013904242, 2773480762,
     1359893119, 2600822924, 528734635, 1541459225⟩
  [st.a, st.b, st.c, st.d, st.e, st.f, st.g, st.h].flatMap wordBytes

/-- HMAC-SHA256, block size 64. -/
def hmacSha256 (key msg : List Nat) : List Nat :=
  let k0 := if key.length > 64 then sha256 key else key
  let kp := k0 ++ List.replicate (64 - k0.length) 0
  sha256 ((kp.map (Nat.xor 92)) ++ sha256 ((kp.map (Nat.xor 54)) ++ msg))

/-- Pointwise xor of byte strings (zip semantics, as in the PBKDF2 block fold). -/
def xorBytes (a b : List Nat) : List Nat := (a.zip b).map fun p => Nat.xor p.1 p.2

/-- Iterate the PBKDF2 PRF chain: `n` further applications, accumulating xors. -/
def pbkdf2Go (n : Nat) (password u acc : List Nat) : List Nat :=
  match n with
  | 0 => acc
  | n + 1 =>
    let u' := hmacSha256 password u
    pbkdf2Go n password u' (xorBytes acc u')

/-- PBKDF2-HMAC-SHA256 with a 32-byte derived key (one block, index 1),
matching `hashlib.pbkdf2_hmac('sha256', password, salt, iterations)`. -/
def pbkdf2HmacSha256 (password salt : List Nat) (iterations : Nat) : List Nat :=
  let u1 := hmacSha256 password (salt ++ [0, 0, 0, 1])
  pbkdf2Go (iterations - 1) password u1 u1

/-! ### Length and range facts about the digest -/

theorem sha256_length (msg : List Nat) : (sha256 msg).length = 32 := by
  simp [sha256, wordBytes]

theorem wordBytes_lt (w : Nat) : ∀ x ∈ wordBytes w, x < 256 := by
  intro x hx
  simp only [wordBytes, List.mem_cons, List.not_mem_nil, or_false] at hx
  omega

theorem sha256_lt (msg : List Nat) : ∀ x ∈ sha256 msg, x < 256 := by
  intro x hx
  simp only [sha256, List.mem_flatMap] at hx
  obtain ⟨w, _, hw⟩ := hx
  exact wordBytes_lt w x hw

theorem xorBytes_length (a b : List Nat) :
    (xorBytes a b).length = min a.length b.length := by
  simp [xorBytes]

theorem pbkdf2Go_length (n : Nat) (p : List Nat) :
    ∀ u acc : List Nat, acc.length = 32 → (pbkdf2Go n p u acc).length = 32 := by
  induction n with
  | zero => intro u acc h; simpa [pbkdf2Go] using h
  | succ n ih =>
    intro u acc h
    simp only [pbkdf2Go]
    exact ih _ _ (by simp [xorBytes_length, h, sha256_length, hmacSha256])

theorem hmacSha256_length (key msg : List Nat) : (hmacSha256 key msg).length = 32 := by
  simp [hmacSha256, sha256_length]

theorem pbkdf2_length (p s : List Nat) (c : Nat) :
    (pbkdf2HmacSha256 p s c).length = 32 := by
  simp only [pbkdf2HmacSha256]
  exact pbkdf2Go_length _ _ _ _ (hmacSha256_length _ _)

theorem xorBytes_lt (a b : List Nat) (ha : ∀ x ∈ a, x < 256) (hb : ∀ x ∈ b, x < 256) :
    ∀ x ∈ xorBytes a b, x < 256 := by
  intro x hx
  simp only [xorBytes, List.mem_map] at hx
  obtain ⟨⟨u, v⟩, hmem, rfl⟩ := hx
  have hu := ha u (List.of_mem_zip hmem).1
  have hv := hb v (List.of_mem_zip hmem).2
  calc Nat.xor u v < 2 ^ 8 := Nat.xor_lt_two_pow (by simpa using hu) (by simpa using hv)
  _ = 256 := by norm_num

theorem pbkdf2Go_lt (n : Nat) (p : List Nat) :
    ∀ u acc : List Nat, (∀ x ∈ acc, x < 256) → ∀ x ∈ pbkdf2Go n p u acc, x < 256 := by
  induction n with
  | zero => intro u acc h; simpa [pbkdf2Go] using h
  | succ n ih =>
    intro u acc h
    simp only [pbkdf2Go]
    exact ih _ _ (xorBytes_lt _ _ h (sha256_lt _))

theorem pbkdf2_lt (p s : List Nat) (c : Nat) :
    ∀ x ∈ pbkdf2HmacSha256 p s c, x < 256 := by
  simp only [pbkdf2HmacSha256]
  exact pbkdf2Go_lt _ _ _ _ (sha256_lt _)

/-! ## Base64 (`base64.b64encode` / `base64.b64decode` on well-formed input) -/

/-- The standard base64 alphabet. -/
def b64Alpha : List Char :=
  "ABCDEFGHIJKLMNOPQRSTUVWXYZabcdefghijklmnopqrstuvwxyz0123456789+/".data

/-- Character for a sextet. -/
def b64chr (n : Nat) : Char := b64Alpha.getD n '?'

/-- Sextet for a character; `none` for anything outside the alphabet
(including the padding character). -/
def b64idx (c : Char) : Option Nat := b64Alpha.indexOf? c

/-- Encode bytes three at a time, with `=` padding. -/
def b64encodeCore : List Nat → List Char
  | [] => []
  | [a] => [b64chr (a / 4), b64chr (a % 4 * 16), '=', '=']
  | [a, b] => [b64chr (a / 4), b64chr (a % 4 * 16 + b / 16), b64chr (b % 16 * 4), '=']
  | a :: b :: c :: rest =>
    b64chr (a / 4) :: b64chr (a % 4 * 16 + b / 16) ::
      b64chr (b % 16 * 4 + c / 64) :: b64chr (c % 64) :: b64encodeCore rest

/-- Decode well-formed base64 text four characters at a time; `none` on
malformed input (where `base64.b64decode` raises). -/
def b64decodeCore : List Char → Option (List Nat)
  | [] => some []
  | c1 :: c2 :: c3 :: c4 :: rest =>
    match b64idx c1, b64idx c2 with
    | some x1, some x2 =>
      if c3 = '=' then
        if c4 = '=' ∧ rest = [] then some [x1 * 4 + x2 / 16] else none
      else
        match b64idx c3 with
        | some x3 =>
          if c4 = '=' then
            if rest = [] then some [x1 * 4 + x2 / 16, x2 % 16 * 16 + x3 / 4] else none
          else
            match b64idx c4 with
            | some x4 =>
              (b64decodeCore rest).map fun tl =>
                (x1 * 4 + x2 / 16) :: (x2 % 16 * 16 + x3 / 4) :: (x3 % 4 * 64 + x4) :: tl
            | none => none
        | none => none
    | _, _ => none
  | _ => none

/-- Encode bytes to a base64 string (the `.decode('ascii')` step is the
identity in this model). -/
def b64encode (bs : List Nat) : String := String.mk (b64encodeCore bs)

/-- Decode a base64 string. -/
def b64decode (s : String) : Option (List Nat) := b64decodeCore s.data

theorem b64idx_chr : ∀ n, n < 64 → b64idx (b64chr n) = some n := by decide

theorem b64chr_ne_pad : ∀ n, n < 64 → b64chr n ≠ '=' := by decide

theorem b64decodeCore_encodeCore :
    ∀ bs : List Nat, (∀ x ∈ bs, x < 256) → b64decodeCore (b64encodeCore bs) = some bs := by
  intro bs
  induction bs using b64encodeCore.induct with
  | case1 => intro _; rfl
  | case2 a =>
    intro hlt
    have ha := hlt a (by simp)
    simp only [b64encodeCore, b64decodeCore,
      b64idx_chr (a / 4) (by omega), b64idx_chr (a % 4 * 16) (by omega)]
    norm_num
    omega
  | case3 a b =>
    intro hlt
    have ha := hlt a (by simp)
    have hb := hlt b (by simp)
    simp only [b64encodeCore, b64decodeCore,
      b64idx_chr (a / 4) (by omega), b64idx_chr (a % 4 * 16 + b / 16) (by omega),
      b64chr_ne_pad (b % 16 * 4) (by omega), b64idx_chr (b % 16 * 4) (by omega)]
    norm_num
    constructor
    · omega
    · omega
  | case4 a b c rest ih =>
    intro hlt
    have ha := hlt a (by simp)
    have hb := hlt b (by simp)
    have hc := hlt c (by simp)
    have hrest : ∀ x ∈ rest, x < 256 := fun x hx => hlt x (by simp [hx])
    simp only [b64encodeCore, b64decodeCore,
      b64idx_chr (a / 4) (by omega), b64idx_chr (a % 4 * 16 + b / 16) (by omega),
      b64chr_ne_pad (b % 16 * 4 + c / 64) (by omega),
      b64idx_chr (b % 16 * 4 + c / 64) (by omega),
      b64chr_ne_pad (c % 64) (by omega),
      b64idx_chr (c % 64) (by omega), ih hrest, Option.map_some]
    norm_num
    refine ⟨by omega, by omega, by omega⟩

theorem b64decode_encode (bs : List Nat) (h : ∀ x ∈ bs, x < 256) :
    b64decode (b64encode bs) = some bs := by
  simpa [b64decode, b64encode] using b64decodeCore_encodeCore bs h

theorem b64encode_injOn (bs bs' : List Nat) (h : ∀ x ∈ bs, x < 256)
    (h' : ∀ x ∈ bs', x < 256) (heq : b64encode bs = b64encode bs') : bs = bs' := by
  have := b64decode_encode bs h
  rw [heq, b64decode_encode bs' h'] at this
  exact (Option.some.injEq _ _ ▸ this).symm

/-! ## Credential hasher (`_pbkdf2_hash` / `_pbkdf2_verify` in `src/utils/db.py`) -/

/-- Constant-time digest comparison (`hmac.compare_digest`): unequal lengths
give `False`; otherwise the xor differences are or-accumulated. -/
def compare_digest (a b : List Nat) : Bool :=
  if a.length = b.length then
    ((a.zip b).foldl (fun acc p => acc ||| (p.1 ^^^ p.2)) 0) == 0
  else false

theorem lor_zero_iff (a b : Nat) : a ||| b = 0 ↔ a = 0 ∧ b = 0 := by
  constructor
  · intro h
    have hb : ∀ k, (a ||| b).testBit k = false := by simp [h]
    constructor
    · apply Nat.eq_of_testBit_eq
      intro k
      have := hb k
      simp only [Nat.testBit_lor, Bool.or_eq_false_iff] at this
      simp [this.1]
    · apply Nat.eq_of_testBit_eq
      intro k
      have := hb k
      simp only [Nat.testBit_lor, Bool.or_eq_false_iff] at this
      simp [this.2]
  · rintro ⟨rfl, rfl⟩
    rfl

theorem lor_fold_zero_iff (l : List (Nat × Nat)) :
    ∀ acc, (l.foldl (fun acc p => acc ||| (p.1 ^^^ p.2)) acc = 0 ↔
      acc = 0 ∧ ∀ p ∈ l, p.1 = p.2) := by
  induction l with
  | nil => intro acc; simp
  | cons hd tl ih =>
    intro acc
    simp only [List.foldl_cons, ih, lor_zero_iff, Nat.xor_eq_zero, List.mem_cons]
    constructor
    · rintro ⟨⟨h1, h2⟩, h3⟩
      exact ⟨h1, fun p hp => hp.elim (fun he => he ▸ h2) (h3 p)⟩
    · rintro ⟨h1, h2⟩
      exact ⟨⟨h1, h2 hd (Or.inl rfl)⟩, fun p hp => h2 p (Or.inr hp)⟩

theorem zip_forall_eq_iff (a b : List Nat) (hl : a.length = b.length) :
    (∀ p ∈ a.zip b, p.1 = p.2) ↔ a = b := by
  constructor
  · intro h
    apply List.ext_getElem hl
    intro i h1 h2
    refine h (a[i], b[i]) ?_
    rw [List.mem_iff_getElem]
    refine ⟨i, by rw [List.length_zip]; omega, by simp⟩
  · rintro rfl p hp
    rw [List.mem_iff_getElem] at hp
    obtain ⟨i, hi, hp⟩ := hp
    rw [List.getElem_zip] at hp
    rw [← hp]

theorem compare_digest_eq_true_iff (a b : List Nat) :
    compare_digest a b = true ↔ a = b := by
  unfold compare_digest
  by_cases hl : a.length = b.length
  · rw [if_pos hl, beq_iff_eq, lor_fold_zero_iff, zip_forall_eq_iff a b hl]
    simp
  · rw [if_neg hl]
    constructor
    · intro h
      cases h
    · intro h
      subst h
      exact absurd rfl hl

/-- Lowercasing per `str.lower()` (reimplemented over the character list so
concrete terms reduce; agrees with `String.toLower`). -/
def pyLower (s : String) : String := String.mk (s.data.map Char.toLower)

/-- Whitespace stripping per `str.strip()` (again over the character list;
agrees with `String.trim` on ASCII whitespace). -/
def pyStrip (s : String) : String :=
  String.mk (((s.data.dropWhile Char.isWhitespace).reverse.dropWhile
    Char.isWhitespace).reverse)

/-- UTF-8 encoding of one character. -/
def utf8Bytes (c : Char) : List Nat :=
  let n := c.toNat
  if n < 128 then [n]
  else if n < 2048 then [192 + n / 64, 128 + n % 64]
  else if n < 65536 then [224 + n / 4096, 128 + n / 64 % 64, 128 + n % 64]
  else [240 + n / 262144, 128 + n / 4096 % 64, 128 + n / 64 % 64, 128 + n % 64]

/-- UTF-8 bytes of a password string (`password.encode('utf-8')`). -/
def strBytes (s : String) : List Nat := s.data.flatMap utf8Bytes

/-- Result of `_pbkdf2_hash`: the dict `{'salt_b64': ..., 'iters': ..., 'hash_b64': ...}`. -/
structure PbkdfHash where
  salt_b64 : String
  iters : Nat
  hash_b64 : String
deriving DecidableEq, Repr

/-- Model of `_pbkdf2_hash(password, salt, iterations)`. The source defaults
`salt` to a fresh `os.urandom(16)` draw and `iterations` to 100000; the random
draw is passed explicitly here, and call sites pass 100000 explicitly. -/
def _pbkdf2_hash (password : String) (salt : List Nat) (iterations : Nat) : PbkdfHash :=
  { salt_b64 := b64encode salt
    iters := iterations
    hash_b64 := b64encode (pbkdf2HmacSha256 (strBytes password) salt iterations) }

/-- Model of `_pbkdf2_verify(password, salt_b64, iters, hash_b64)`.
Returns `none` where the Python code would raise while base64-decoding. -/
def _pbkdf2_verify (password salt_b64 : String) (iters : Nat) (hash_b64 : String) :
    Option Bool :=
  match b64decode salt_b64, b64decode hash_b64 with
  | some salt, some expected =>
    some (compare_digest (pbkdf2HmacSha256 (strBytes password) salt iters) expected)
  | _, _ => none

theorem pbkdf2_verify_hash (password q : String) (salt : List Nat) (iters : Nat)
    (hs : ∀ x ∈ salt, x < 256) :
    _pbkdf2_verify q (_pbkdf2_hash password salt iters).salt_b64
        (_pbkdf2_hash password salt iters).iters
        (_pbkdf2_hash password salt iters).hash_b64 =
      some (compare_digest (pbkdf2HmacSha256 (strBytes q) salt iters)
        (pbkdf2HmacSha256 (strBytes password) salt iters)) := by
  simp [_pbkdf2_verify, _pbkdf2_hash, b64decode_encode salt hs,
    b64decode_encode _ (pbkdf2_lt (strBytes password) salt iters)]

theorem pbkdf2_verify_empty_expected (password salt_b64 : String) (iters : Nat)
    (salt : List Nat) (hdec : b64decode salt_b64 = some salt) :
    _pbkdf2_verify password salt_b64 iters "" = some false := by
  have h0 : b64decode "" = some [] := rfl
  have hlen := pbkdf2_length (strBytes password) salt iters
  simp only [_pbkdf2_verify, hdec, h0]
  simp [compare_digest, hlen]

/-! ## Data model (`src/utils/db.py` schema and CRUD) -/

/-- JSON-serializable scalar values as they appear in audit snapshots after
`_serialize_for_json` (dates already stringified, `None` to null). -/
inductive JVal where
  | jnull
  | jbool (b : Bool)
  | jnat (n : Nat)
  | jint (i : Int)
  | jrat (q : Rat)
  | jstr (s : String)
deriving DecidableEq, Repr

/-- An audit snapshot: the Python dict, with insertion order preserved
(which `json.dumps` serializes in that order). -/
abbrev JObj := List (String × JVal)

/-- Row of `alumnos`. -/
structure Alumno where
  id : Nat
  nombre : String
  carrera : String
  activo : Bool
deriving DecidableEq, Repr

/-- Row of `lugares`. -/
structure Lugar where
  id : Nat
  nombre : String
  activo : Bool
deriving DecidableEq, Repr

/-- Row of `registros`. `fecha` carries `str(fecha)`; `horas` carries the
numeric value (only ever passed through, never computed with here). -/
structure Registro where
  id : Nat
  alumno_id : Nat
  lugar_id : Nat
  actividad : String
  fecha : String
  horas : Rat
  anio : Int
  semestre : Int
  validado : Bool
  validador : Option String
deriving DecidableEq, Repr

/-- Row of `usuarios`. -/
structure Usuario where
  id : Nat
  username : String
  role : String
  alumno_id : Option Nat
  salt_b64 : String
  iters : Nat
  hash_b64 : String
deriving DecidableEq, Repr

/-- Row of `auditoria`. The `ts` column (`datetime.now()`) is wall-clock
time outside the model and is omitted. -/
structure AuditEntry where
  id : Nat
  usuario : Option String
  accion : String
  tabla : String
  entity_id : Nat
  before_json : Option JObj
  after_json : Option JObj
deriving DecidableEq, Repr

/-- The whole database: the five tables plus the five DuckDB sequences.
Each `seq_*` holds the value `nextval` will return next. -/
structure DB where
  alumnos : List Alumno
  lugares : List Lugar
  registros : List Registro
  usuarios : List Usuario
  auditoria : List AuditEntry
  seq_alumnos : Nat
  seq_lugares : Nat
  seq_registros : Nat
  seq_usuarios : Nat
  seq_auditoria : Nat
deriving DecidableEq, Repr

/-- Model of `_init_sequence(con, seq_name, table_name)`: drop and recreate
the sequence starting at `COALESCE(MAX(id), 0) + 1` over the given table's
ids. -/
def _init_sequence (ids : List Nat) : Nat := ids.foldl max 0 + 1

/-- Reseed the `alumnos` allocator, as `init_db` does on every startup. -/
def init_sequence_alumnos (db : DB) : DB :=
  { db with seq_alumnos := _init_sequence (db.alumnos.map (·.id)) }

/-- Mirror of `json.dumps(x) if x else None`: an absent or empty (falsy)
dict serializes to NULL. -/
def jsonOrNone (o : Option JObj) : Option JObj :=
  match o with
  | none => none
  | some d => if d = [] then none else some d

/-- Model of `_audit(accion, tabla, entity_id, before, after, usuario)`:
append one row to `auditoria` with the next sequence id. -/
def _audit (accion tabla : String) (entity_id : Nat) (before after : Option JObj)
    (usuario : Option String) (db : DB) : DB :=
  { db with
    auditoria := db.auditoria ++
      [⟨db.seq_auditoria, usuario, accion, tabla, entity_id,
        jsonOrNone before, jsonOrNone after⟩]
    seq_auditoria := db.seq_auditoria + 1 }

/-- Snapshot dict for an `alumnos` row, key order as in the source. -/
def alumnoJ (id : Nat) (nombre carrera : String) (activo : Bool) : JObj :=
  [("id", .jnat id), ("nombre", .jstr nombre), ("carrera", .jstr carrera),
   ("activo", .jbool activo)]

/-- Snapshot dict of a stored `alumnos` row (the observable row state). -/
def alumnoRowJ (a : Alumno) : JObj := alumnoJ a.id a.nombre a.carrera a.activo

/-- Snapshot dict for a `lugares` row. -/
def lugarJ (id : Nat) (nombre : String) (activo : Bool) : JObj :=
  [("id", .jnat id), ("nombre", .jstr nombre), ("activo", .jbool activo)]

/-- Snapshot dict of a stored `lugares` row. -/
def lugarRowJ (l : Lugar) : JObj := lugarJ l.id l.nombre l.activo

/-- Snapshot dict of a `registros` row in `SELECT *` column order. -/
def registroRowJ (r : Registro) : JObj :=
  [("id", .jnat r.id), ("alumno_id", .jnat r.alumno_id), ("lugar_id", .jnat r.lugar_id),
   ("actividad", .jstr r.actividad), ("fecha", .jstr r.fecha), ("horas", .jrat r.horas),
   ("anio", .jint r.anio), ("semestre", .jint r.semestre),
   ("validado", .jbool r.validado),
   ("validador", match r.validador with | none => .jnull | some v => .jstr v)]

/-- Optional student link as a snapshot value. -/
def jOptNat (o : Option Nat) : JVal :=
  match o with
  | none => .jnull
  | some n => .jnat n

/-- First row of `alumnos` with the given id (`SELECT ... WHERE id=?` + `fetchone`). -/
def findAlumno (db : DB) (id : Nat) : Option Alumno := db.alumnos.find? (·.id == id)

/-- First row of `lugares` with the given id. -/
def findLugar (db : DB) (id : Nat) : Option Lugar := db.lugares.find? (·.id == id)

/-- First row of `registros` with the given id. -/
def findRegistro (db : DB) (id : Nat) : Option Registro := db.registros.find? (·.id == id)

/-- Model of `insert_alumno(nombre, carrera, usuario)`: draw the next id,
insert the trimmed row with `activo=TRUE`, audit an INSERT whose
after-snapshot carries the raw (untrimmed) inputs. -/
def insert_alumno (nombre carrera : String) (usuario : Option String) (db : DB) :
    Nat × DB :=
  let new_id := db.seq_alumnos
  let db1 := { db with seq_alumnos := db.seq_alumnos + 1 }
  let db2 := { db1 with alumnos := db1.alumnos ++ [⟨new_id, pyStrip nombre, pyStrip carrera, true⟩] }
  (new_id, _audit "INSERT" "alumnos" new_id none
    (some (alumnoJ new_id nombre carrera true)) usuario db2)

/-- Model of `soft_delete_alumno(alumno_id, usuario)`: no-op when the id is
absent; otherwise clear `activo` and audit a DELETE. -/
def soft_delete_alumno (alumno_id : Nat) (usuario : Option String) (db : DB) : DB :=
  match findAlumno db alumno_id with
  | none => db
  | some a =>
    let before_d := alumnoJ a.id a.nombre a.carrera a.activo
    let db1 := { db with
      alumnos := db.alumnos.map fun r => if r.id = alumno_id then { r with activo := false } else r }
    let after_d := alumnoJ a.id a.nombre a.carrera false
    _audit "DELETE" "alumnos" alumno_id (some before_d) (some after_d) usuario db1

/-- Model of `restore_alumno(alumno_id, usuario)`: symmetric to soft delete,
setting `activo=TRUE` and auditing an UPDATE. -/
def restore_alumno (alumno_id : Nat) (usuario : Option String) (db : DB) : DB :=
  match findAlumno db alumno_id with
  | none => db
  | some a =>
    let before_d := alumnoJ a.id a.nombre a.carrera a.activo
    let db1 := { db with
      alumnos := db.alumnos.map fun r => if r.id = alumno_id then { r with activo := true } else r }
    let after_d := alumnoJ a.id a.nombre a.carrera true
    _audit "UPDATE" "alumnos" alumno_id (some before_d) (some after_d) usuario db1

/-- Model of `insert_lugar(nombre, usuario)`. -/
def insert_lugar (nombre : String) (usuario : Option String) (db : DB) : Nat × DB :=
  let new_id := db.seq_lugares
  let db1 := { db with seq_lugares := db.seq_lugares + 1 }
  let db2 := { db1 with lugares := db1.lugares ++ [⟨new_id, pyStrip nombre, true⟩] }
  (new_id, _audit "INSERT" "lugares" new_id none
    (some (lugarJ new_id nombre true)) usuario db2)

/-- Model of `soft_delete_lugar(lugar_id, usuario)`. -/
def soft_delete_lugar (lugar_id : Nat) (usuario : Option String) (db : DB) : DB :=
  match findLugar db lugar_id with
  | none => db
  | some l =>
    let before_d := lugarJ l.id l.nombre l.activo
    let db1 := { db with
      lugares := db.lugares.map fun r => if r.id = lugar_id then { r with activo := false } else r }
    let after_d := lugarJ l.id l.nombre false
    _audit "DELETE" "lugares" lugar_id (some before_d) (some after_d) usuario db1

/-- Model of `restore_lugar(lugar_id, usuario)`. -/
def restore_lugar (lugar_id : Nat) (usuario : Option String) (db : DB) : DB :=
  match findLugar db lugar_id with
  | none => db
  | some l =>
    let before_d := lugarJ l.id l.nombre l.activo
    let db1 := { db with
      lugares := db.lugares.map fun r => if r.id = lugar_id then { r with activo := true } else r }
    let after_d := lugarJ l.id l.nombre true
    _audit "UPDATE" "lugares" lugar_id (some before_d) (some after_d) usuario db1

/-- Model of `insert_registro(...)`. The id is drawn from the sequence before
the INSERT runs, so a constraint violation (missing foreign key, `horas <= 0`,
`semestre` outside {1,2}) still consumes the id; in that case the INSERT and
the audit append both raise away (`none` result). -/
def insert_registro (alumno_id lugar_id : Nat) (actividad fecha : String)
    (horas : Rat) (anio semestre : Int) (usuario : Option String) (db : DB) :
    Option Nat × DB :=
  let new_id := db.seq_registros
  let db1 := { db with seq_registros := db.seq_registros + 1 }
  if (db1.alumnos.any (·.id == alumno_id)) ∧ (db1.lugares.any (·.id == lugar_id)) ∧
      0 < horas ∧ (semestre = 1 ∨ semestre = 2) then
    let db2 := { db1 with registros := db1.registros ++
      [⟨new_id, alumno_id, lugar_id, pyStrip actividad, fecha, horas, anio, semestre,
        false, none⟩] }
    (some new_id, _audit "INSERT" "registros" new_id none
      (some [("id", .jnat new_id), ("alumno_id", .jnat alumno_id),
             ("lugar_id", .jnat lugar_id), ("actividad", .jstr actividad),
             ("fecha", .jstr fecha), ("horas", .jrat horas), ("anio", .jint anio),
             ("semestre", .jint semestre), ("validado", .jbool false),
             ("validador", .jnull)]) usuario db2)
  else
    (none, db1)

/-- Model of `validar_registro(registro_id, validador, usuario)`: update all
rows with the id (zero rows when absent), then audit a VALIDAR entry whose
snapshots are re-read from the table (NULL dicts when the id is absent). -/
def validar_registro (registro_id : Nat) (validador : String) (usuario : Option String)
    (db : DB) : DB :=
  let before := findRegistro db registro_id
  let db1 := { db with
    registros := db.registros.map fun r =>
      if r.id = registro_id then { r with validado := true, validador := some (pyStrip validador) }
      else r }
  let after := findRegistro db1 registro_id
  _audit "VALIDAR" "registros" registro_id (before.map registroRowJ)
    (after.map registroRowJ) usuario db1

/-- Model of `create_user(username, password, role, alumno_id)` with the salt
draw explicit. The row stores `username.strip().lower()`; the audit snapshot
records the raw username, role and student link only, and names the raw
username as the acting user. A UNIQUE-username or foreign-key violation
raises after the id is consumed (`none` result). -/
def create_user (username password role : String) (alumno_id : Option Nat)
    (salt : List Nat) (db : DB) : Option Nat × DB :=
  let new_id := db.seq_usuarios
  let db1 := { db with seq_usuarios := db.seq_usuarios + 1 }
  let h := _pbkdf2_hash password salt 100000
  if (db1.usuarios.any (·.username == pyLower (pyStrip username))) ||
      (match alumno_id with
       | none => false
       | some aid => ! db1.alumnos.any (·.id == aid)) then
    (none, db1)
  else
    let db2 := { db1 with usuarios := db1.usuarios ++
      [⟨new_id, pyLower (pyStrip username), role, alumno_id, h.salt_b64, h.iters, h.hash_b64⟩] }
    (some new_id, _audit "INSERT" "usuarios" new_id none
      (some [("username", .jstr username), ("role", .jstr role),
             ("alumno_id", jOptNat alumno_id)]) (some username) db2)

/-- Model of `verify_user(username, password)`: `some none` is a failed
login (missing user or failed verification, indistinguishable to callers),
`some (some info)` is success, and `none` is a raised exception from base64
decoding of a corrupt stored credential. -/
def verify_user (db : DB) (username password : String) :
    Option (Option Usuario) :=
  match db.usuarios.find? (·.username == pyLower (pyStrip username)) with
  | none => some none
  | some row =>
    match _pbkdf2_verify password row.salt_b64 row.iters row.hash_b64 with
    | none => none
    | some ok => if ok then some (some row) else some none

/-! ## Session state and authentication (`src/utils/auth.py`, `src/utils/microsoft_auth.py`) -/

/-- Values stored in `st.session_state`. -/
inductive SVal where
  | svnone
  | sbool (b : Bool)
  | snat (n : Nat)
  | sstr (s : String)
  | sset (l : List String)
deriving DecidableEq, Repr

/-- Model of `st.session_state`: present keys map to values. -/
def Session : Type := String → Option SVal

/-- Set (or overwrite) a key. -/
def setK (s : Session) (k : String) (v : SVal) : Session :=
  fun k' => if k' = k then some v else s k'

/-- Delete a key (the `del st.session_state[k]` / absent-key no-op pair). -/
def removeK (s : Session) (k : String) : Session :=
  fun k' => if k' = k then none else s k'

/-- The keys `logout` clears (`SESSION_KEYS` in `auth.py`). -/
def SESSION_KEYS : List String := ["auth", "user", "role", "alumno_id"]

/-- Python truthiness of a stored value, for `bool(st.session_state.get("auth"))`. -/
def truthy (v : SVal) : Bool :=
  match v with
  | .svnone => false
  | .sbool b => b
  | .snat n => n != 0
  | .sstr t => t != ""
  | .sset l => l != []

/-- Model of `is_logged()`. -/
def is_logged (s : Session) : Bool :=
  match s "auth" with
  | none => false
  | some v => truthy v

/-- Model of `current_role()` (`st.session_state.get("role", "")`). -/
def current_role (s : Session) : String :=
  match s "role" with
  | some (.sstr r) => r
  | _ => ""

/-- Model of `has_role(roles)`. -/
def has_role (s : Session) (roles : List String) : Bool :=
  is_logged s && roles.contains (current_role s)

/-- Optional student link as a session value (`None` stays a present key). -/
def sOptNat (o : Option Nat) : SVal :=
  match o with
  | none => .svnone
  | some n => .snat n

/-- Model of `login(user, password)` from `auth.py`: on success set the four
session keys and return `True`; on failure return `False` untouched. `none`
is a propagated exception from `verify_user`. -/
def login (db : DB) (user password : String) (s : Session) : Option (Bool × Session) :=
  match verify_user db user password with
  | none => none
  | some none => some (false, s)
  | some (some info) =>
    let s1 := setK s "auth" (.sbool true)
    let s2 := setK s1 "user" (.sstr info.username)
    let s3 := setK s2 "role" (.sstr info.role)
    let s4 := setK s3 "alumno_id" (sOptNat info.alumno_id)
    some (true, s4)

/-- Model of `logout()`: delete each key in `SESSION_KEYS` (the trailing
`st.rerun()` is UI-only). -/
def logout (s : Session) : Session :=
  fun k => if k ∈ SESSION_KEYS then none else s k

/-- Default admin allow-list (`MICROSOFT_ADMIN_STUDENTS`, default `"25837"`). -/
def DEFAULT_ADMIN_STUDENTS : List String := ["25837"]

/-- Model of `get_admin_students()`: read the session-scoped admin set,
initializing it from the default allow-list when absent. -/
def get_admin_students (s : Session) : List String × Session :=
  match s "microsoft_admin_students" with
  | some (.sset l) => (l, s)
  | _ => (DEFAULT_ADMIN_STUDENTS,
      setK s "microsoft_admin_students" (.sset DEFAULT_ADMIN_STUDENTS))

/-- Local part of an email after lowercasing (`email.lower().split("@")[0]`). -/
def localPart (email : String) : List Char :=
  (pyLower email).data.takeWhile (· != '@')

/-- Full match of `([a-zA-Z]+)(2\d+)` against a character list, returning
group 2. The letter prefix is necessarily the maximal letter run, since the
following character `'2'` is not a letter. -/
def studentPat (l : List Char) : Option (List Char) :=
  let letters := l.takeWhile (·.isAlpha)
  match l.dropWhile (·.isAlpha) with
  | '2' :: ds =>
    if letters != [] && ds != [] && ds.all (·.isDigit) then some ('2' :: ds) else none
  | _ => none

/-- Model of `determinar_rol(email)`: student pattern beats letters-only
pattern beats the default role. -/
def determinar_rol (s : Session) (email : String) : String :=
  if email = "" then "Estudiante"
  else
    let loc := localPart email
    match studentPat loc with
    | some sid =>
      if (get_admin_students s).1.contains (String.mk sid) then "Admin" else "Estudiante"
    | none =>
      if loc != [] && loc.all (·.isAlpha) then "Docente" else "Estudiante"

/-- Session establishment in `microsoft_login_flow` after a domain-valid
email: the seven keys set at lines 262-268, then the admin-set
initialization and the popup-marker cleanup. -/
def ms_establish_session (email display_name : String) (s : Session) : Session :=
  let s1 := setK s "auth" (.sbool true)
  let s2 := setK s1 "user" (.sstr email)
  let s3 := setK s2 "display_name" (.sstr display_name)
  let s4 := setK s3 "email" (.sstr email)
  let s5 := setK s4 "role" (.sstr (determinar_rol s4 email))
  let s6 := setK s5 "auth_method" (.sstr "Microsoft")
  let s7 := setK s6 "alumno_id" .svnone
  removeK (get_admin_students s7).2 "ms_popup_login"

/-- Model of `_normalize_student_id_from_input(value)`. -/
def _normalize_student_id_from_input (value : String) : Option String :=
  if value = "" then none
  else
    let v := pyLower (pyStrip value)
    if v.data.contains '@' then
      let loc := v.data.takeWhile (· != '@')
      match studentPat loc with
      | some sid => some (String.mk sid)
      | none =>
        if loc != [] && loc.all (·.isDigit) then
          if loc.head? = some '2' then some (String.mk loc)
          else some (String.mk ('2' :: loc))
        else none
    else
      let digits := v.data.filter (·.isDigit)
      if digits != [] then
        if digits.head? = some '2' then some (String.mk digits)
        else some (String.mk ('2' :: digits))
      else
        match studentPat v.data with
        | some sid => some (String.mk sid)
        | none => none

/-- Model of `add_admins_from_codes(codes)`: normalize each code and add the
new ones to the session admin set, counting additions. -/
def add_admins_from_codes (codes : List String) (s : Session) : Nat × Session :=
  let admins0 :=
    match s "microsoft_admin_students" with
    | some (.sset l) => l
    | _ => DEFAULT_ADMIN_STUDENTS
  let out := codes.foldl (fun (p : List String × Nat) code =>
    match _normalize_student_id_from_input code with
    | some sid => if sid ∈ p.1 then p else (p.1 ++ [sid], p.2 + 1)
    | none => p) (admins0, 0)
  (out.2, setK s "microsoft_admin_students" (.sset out.1))

/-- Model of `add_admin_from_code(code)`. -/
def add_admin_from_code (code : String) (s : Session) : Bool × Session :=
  let r := add_admins_from_codes [code] s
  (r.1 == 1, r.2)

/-- Modelled from the spec: `remove_admin_by_code` is imported by
`5_Administradores.py` but missing from `microsoft_auth.py`; per spec section
4.6 the admin-management `remove` operation deletes one identifier from the
session-scoped admin set. Returns whether the identifier was present. -/
def remove_admin_by_code (code : String) (s : Session) : Bool × Session :=
  let r := get_admin_students s
  if code ∈ r.1 then
    (true, setK r.2 "microsoft_admin_students" (.sset (r.1.filter (· != code))))
  else (false, r.2)

/-- Leftmost match of `re.search(r'(2\d+)', text)`: the first `'2'` followed
by at least one digit, with the digit run taken greedily. -/
def searchStudentCode : List Char → Option (List Char)
  | [] => none
  | '2' :: rest =>
    let ds := rest.takeWhile (·.isDigit)
    if ds != [] then some ('2' :: ds) else searchStudentCode rest
  | _ :: rest => searchStudentCode rest

/-- The admin page's removal flow (`5_Administradores.py` lines 27-29 and
76-89): the page stops unless the session holds the Admin role; the remove
button is not rendered for the caller's own code (the `"(Tú)"` branch); an
unsuccessful removal surfaces an error. `none` means no mutation happened. -/
def admin_page_remove (s : Session) (code : String) : Option Session :=
  if !has_role s ["Admin"] then none
  else
    let current_email := match s "email" with | some (.sstr e) => e | _ => ""
    let current_code := (searchStudentCode current_email.data).map String.mk
    if some code = current_code then none
    else
      let r := remove_admin_by_code code s
      if r.1 then some r.2 else none

/-- The admin page's add-by-code flow (`5_Administradores.py` lines 104-130):
gate on the Admin role, keep the digits, force the leading `'2'`, then
`add_admin_from_code`. -/
def admin_page_add (s : Session) (codigo_input : String) : Option Session :=
  if !has_role s ["Admin"] then none
  else
    let digits := codigo_input.data.filter (·.isDigit)
    if digits = [] then none
    else
      let digits2 := if digits.head? = some '2' then digits else '2' :: digits
      let r := add_admin_from_code (String.mk digits2) s
      if r.1 then some r.2 else none

/-! ## Allocator traces for identifier monotonicity -/

/-- Catalog operations exercised against the `alumnos` allocator: inserts and
allocator reseeds (a reseed is what `init_db` runs on every process start). -/
inductive CatOp where
  | ins (nombre carrera : String) (usuario : Option String)
  | reinit
deriving Repr

/-- Run a trace of catalog operations, collecting the issued identifiers in
order. -/
def runCatOps : List CatOp → DB → DB × List Nat
  | [], db => (db, [])
  | .ins n c u :: rest, db =>
    let r := insert_alumno n c u db
    let k := runCatOps rest r.2
    (k.1, r.1 :: k.2)
  | .reinit :: rest, db => runCatOps rest (init_sequence_alumnos db)

/-- Allocator invariant: every stored id is below the sequence's next value. -/
def alumnosInv (db : DB) : Prop := ∀ a ∈ db.alumnos, a.id < db.seq_alumnos

theorem foldl_max_init_le (l : List Nat) : ∀ init, init ≤ l.foldl max init := by
  induction l with
  | nil => simp
  | cons h t ih => intro init; exact le_trans (le_max_left _ _) (ih (max init h))

theorem mem_le_foldl_max (l : List Nat) : ∀ x ∈ l, ∀ init, x ≤ l.foldl max init := by
  induction l with
  | nil => simp
  | cons h t ih =>
    intro x hx init
    rcases List.mem_cons.mp hx with rfl | hxt
    · exact le_trans (le_max_right init x) (foldl_max_init_le t _)
    · exact ih x hxt _

theorem init_sequence_alumnos_inv (db : DB) : alumnosInv (init_sequence_alumnos db) := by
  intro a ha
  have : a.id ≤ (db.alumnos.map (·.id)).foldl max 0 :=
    mem_le_foldl_max _ a.id (List.mem_map_of_mem _ ha) 0
  simp only [init_sequence_alumnos, _init_sequence]
  omega

theorem insert_alumno_inv (n c : String) (u : Option String) (db : DB)
    (h : alumnosInv db) : alumnosInv (insert_alumno n c u db).2 := by
  intro a ha
  simp only [insert_alumno, _audit, List.mem_append, List.mem_cons,
    List.not_mem_nil, or_false] at ha ⊢
  rcases ha with ha | rfl
  · exact Nat.lt_succ_of_lt (h a ha)
  · exact Nat.lt_succ_self _

theorem runCatOps_ids_gt_start :
    ∀ (ops : List CatOp) (db : DB), alumnosInv db →
      ∀ j ∈ (runCatOps ops db).2, ∀ a ∈ db.alumnos, a.id < j := by
  intro ops
  induction ops with
  | nil => intro db _ j hj; simp [runCatOps] at hj
  | cons op rest ih =>
    intro db hinv j hj a ha
    cases op with
    | ins n c u =>
      simp only [runCatOps, List.mem_cons] at hj
      rcases hj with rfl | hj
      · exact hinv a ha
      · refine ih _ (insert_alumno_inv n c u db hinv) j hj a ?_
        simp [insert_alumno, _audit, List.mem_append, ha]
    | reinit =>
      simp only [runCatOps] at hj
      exact ih _ (init_sequence_alumnos_inv db) j hj a ha

theorem runCatOps_pairwise :
    ∀ (ops : List CatOp) (db : DB), alumnosInv db →
      List.Pairwise (· < ·) (runCatOps ops db).2 := by
  intro ops
  induction ops with
  | nil => intro db _; simp [runCatOps]
  | cons op rest ih =>
    intro db hinv
    cases op with
    | ins n c u =>
      simp only [runCatOps, List.pairwise_cons]
      constructor
      · intro j hj
        refine runCatOps_ids_gt_start rest _ (insert_alumno_inv n c u db hinv) j hj
          ⟨db.seq_alumnos, pyStrip n, pyStrip c, true⟩ ?_
        simp [insert_alumno, _audit, List.mem_append]
      · exact ih _ (insert_alumno_inv n c u db hinv)
    | reinit =>
      simp only [runCatOps]
      exact ih _ (init_sequence_alumnos_inv db)

/-- Fresh database as `init_db` leaves it before any seeding: empty tables,
all sequences at 1. -/
def DB0 : DB := ⟨[], [], [], [], [], 1, 1, 1, 1, 1⟩

/-- C2: for every sequence of inserts into a table, the identifiers issued by
the allocator are strictly increasing and never repeat, including across a
reinitialization (simulated restart); on initialization the allocator's next
value is max(existing identifiers) + 1, and 1 when the table is empty, so a
used identifier is never reissued. Proved for the `alumnos` table; the other
four tables run the same `_init_sequence`/`nextval` allocator verbatim. -/
theorem C2_identifier_monotonicity (ops : List CatOp) (db : DB)
    (hinv : ∀ a ∈ db.alumnos, a.id < db.seq_alumnos) :
    List.Pairwise (· < ·) (runCatOps ops db).2 ∧
    (runCatOps ops db).2.Nodup ∧
    (init_sequence_alumnos db).seq_alumnos = (db.alumnos.map (·.id)).foldl max 0 + 1 ∧
    (db.alumnos = [] → (init_sequence_alumnos db).seq_alumnos = 1) := by
  have hp := runCatOps_pairwise ops db hinv
  refine ⟨hp, hp.imp Nat.ne_of_lt, rfl, fun h => ?_⟩
  simp [init_sequence_alumnos, _init_sequence, h]

/-- Witness for C2 at a concrete trace with a mid-trace restart. -/
theorem C2_identifier_monotonicity_witness :
    List.Pairwise (· < ·)
      (runCatOps [CatOp.ins "ana" "cs" none, CatOp.reinit, CatOp.ins "luis" "med" none]
        DB0).2 ∧
    (runCatOps [CatOp.ins "ana" "cs" none, CatOp.reinit, CatOp.ins "luis" "med" none]
        DB0).2.Nodup ∧
    (init_sequence_alumnos DB0).seq_alumnos = (DB0.alumnos.map (·.id)).foldl max 0 + 1 ∧
    (DB0.alumnos = [] → (init_sequence_alumnos DB0).seq_alumnos = 1) :=
  C2_identifier_monotonicity _ DB0 (by simp [DB0])

/-- C4: when validate is called with a record identifier that does not exist,
the source silently updates zero rows and still appends an audit entry with
NULL before/after snapshots instead of reporting an error. Evaluated at the
failing input: `validar_registro(999, 'valida')` on an empty database leaves
`registros` untouched and logs exactly one vacuous VALIDAR entry. The spec
(section 9, and the claim) requires an error and no vacuous audit entry here,
so this is a divergence of the code from its specified intent. -/
theorem C4_validar_nonexistent_logs_vacuous_audit :
    validar_registro 999 "valida" none DB0 =
      { DB0 with
        auditoria := [⟨1, none, "VALIDAR", "registros", 999, none, none⟩]
        seq_auditoria := 2 } := by
  decide

/-! ## Helper lemmas: point updates of rows found by id -/

theorem find_map_upd {α : Type} (idf : α → Nat) (upd : α → α)
    (hid : ∀ r, idf (upd r) = idf r) (aid : Nat) :
    ∀ (l : List α) (a : α), l.find? (fun r => idf r == aid) = some a →
      (l.map fun r => if idf r = aid then upd r else r).find? (fun r => idf r == aid) =
        some (upd a) := by
  intro l
  induction l with
  | nil => intro a h; simp at h
  | cons hd tl ih =>
    intro a h
    by_cases hh : idf hd = aid
    · rw [List.find?_cons_of_pos _ (by simp [hh])] at h
      obtain rfl := Option.some.injEq _ _ ▸ h
      simp only [List.map_cons, if_pos hh]
      rw [List.find?_cons_of_pos _ (by simp [hid, hh])]
    · rw [List.find?_cons_of_neg _ (by simp [hh])] at h
      simp only [List.map_cons, if_neg hh]
      rw [List.find?_cons_of_neg _ (by simp [hh])]
      exact ih a h

theorem eq_of_mem_of_id_eq {α : Type} (idf : α → Nat) (aid : Nat) :
    ∀ (l : List α) (a : α), (l.map idf).Nodup →
      l.find? (fun r => idf r == aid) = some a →
      ∀ r ∈ l, idf r = aid → r = a := by
  intro l
  induction l with
  | nil => intro a _ h; simp at h
  | cons hd tl ih =>
    intro a hnd h r hr hrid
    simp only [List.map_cons, List.nodup_cons] at hnd
    by_cases hh : idf hd = aid
    · rw [List.find?_cons_of_pos _ (by simp [hh])] at h
      obtain rfl := Option.some.injEq _ _ ▸ h
      rcases List.mem_cons.mp hr with rfl | hrt
      · rfl
      · exfalso
        apply hnd.1
        have hmem : idf r ∈ List.map idf tl := List.mem_map_of_mem idf hrt
        rwa [hrid, ← hh] at hmem
    · rw [List.find?_cons_of_neg _ (by simp [hh])] at h
      rcases List.mem_cons.mp hr with rfl | hrt
      · exact absurd hrid hh
      · exact ih a hnd.2 h r hrt hrid

theorem map_upd_eq_self {α : Type} (idf : α → Nat) (upd : α → α) (aid : Nat)
    (l : List α) (a : α) (hnd : (l.map idf).Nodup)
    (hfind : l.find? (fun r => idf r == aid) = some a) (hupd : upd a = a) :
    (l.map fun r => if idf r = aid then upd r else r) = l := by
  have key := eq_of_mem_of_id_eq idf aid l a hnd hfind
  calc (l.map fun r => if idf r = aid then upd r else r) = l.map id := by
        apply List.map_congr_left
        intro r hr
        by_cases h : idf r = aid
        · rw [if_pos h, key r hr h, hupd]
          rfl
        · rw [if_neg h]
          rfl
  _ = l := List.map_id l

theorem map_upd_map_upd {α : Type} (idf : α → Nat) (u1 u2 : α → α) (aid : Nat)
    (hid1 : ∀ r, idf (u1 r) = idf r) (hcomp : ∀ r, u2 (u1 r) = u2 r) (l : List α) :
    ((l.map fun r => if idf r = aid then u1 r else r).map
       fun r => if idf r = aid then u2 r else r) =
      l.map fun r => if idf r = aid then u2 r else r := by
  rw [List.map_map]
  apply List.map_congr_left
  intro r _
  by_cases h : idf r = aid
  · simp [Function.comp, h, hid1, hcomp]
  · simp [Function.comp, h]

/-! ## Per-operation characterizations -/

theorem soft_delete_alumno_eq (db : DB) (aid : Nat) (u : Option String) (a : Alumno)
    (hfind : findAlumno db aid = some a) :
    soft_delete_alumno aid u db =
      { db with
        alumnos := db.alumnos.map fun r => if r.id = aid then { r with activo := false } else r
        auditoria := db.auditoria ++
          [⟨db.seq_auditoria, u, "DELETE", "alumnos", aid,
            some (alumnoJ a.id a.nombre a.carrera a.activo),
            some (alumnoJ a.id a.nombre a.carrera false)⟩]
        seq_auditoria := db.seq_auditoria + 1 } := by
  simp [soft_delete_alumno, hfind, _audit, jsonOrNone, alumnoJ]

theorem restore_alumno_eq (db : DB) (aid : Nat) (u : Option String) (a : Alumno)
    (hfind : findAlumno db aid = some a) :
    restore_alumno aid u db =
      { db with
        alumnos := db.alumnos.map fun r => if r.id = aid then { r with activo := true } else r
        auditoria := db.auditoria ++
          [⟨db.seq_auditoria, u, "UPDATE", "alumnos", aid,
            some (alumnoJ a.id a.nombre a.carrera a.activo),
            some (alumnoJ a.id a.nombre a.carrera true)⟩]
        seq_auditoria := db.seq_auditoria + 1 } := by
  simp [restore_alumno, hfind, _audit, jsonOrNone, alumnoJ]

theorem soft_delete_lugar_eq (db : DB) (lid : Nat) (u : Option String) (l : Lugar)
    (hfind : findLugar db lid = some l) :
    soft_delete_lugar lid u db =
      { db with
        lugares := db.lugares.map fun r => if r.id = lid then { r with activo := false } else r
        auditoria := db.auditoria ++
          [⟨db.seq_auditoria, u, "DELETE", "lugares", lid,
            some (lugarJ l.id l.nombre l.activo),
            some (lugarJ l.id l.nombre false)⟩]
        seq_auditoria := db.seq_auditoria + 1 } := by
  simp [soft_delete_lugar, hfind, _audit, jsonOrNone, lugarJ]

theorem restore_lugar_eq (db : DB) (lid : Nat) (u : Option String) (l : Lugar)
    (hfind : findLugar db lid = some l) :
    restore_lugar lid u db =
      { db with
        lugares := db.lugares.map fun r => if r.id = lid then { r with activo := true } else r
        auditoria := db.auditoria ++
          [⟨db.seq_auditoria, u, "UPDATE", "lugares", lid,
            some (lugarJ l.id l.nombre l.activo),
            some (lugarJ l.id l.nombre true)⟩]
        seq_auditoria := db.seq_auditoria + 1 } := by
  simp [restore_lugar, hfind, _audit, jsonOrNone, lugarJ]

theorem findAlumno_soft_delete (db : DB) (aid : Nat) (u : Option String) (a : Alumno)
    (hfind : findAlumno db aid = some a) :
    findAlumno (soft_delete_alumno aid u db) aid = some { a with activo := false } := by
  rw [soft_delete_alumno_eq db aid u a hfind]
  have hfind' : db.alumnos.find? (fun r => r.id == aid) = some a := hfind
  simpa [findAlumno] using find_map_upd (fun r => r.id)
    (fun r => { r with activo := false }) (fun r => rfl) aid db.alumnos a hfind'

theorem findLugar_soft_delete (db : DB) (lid : Nat) (u : Option String) (l : Lugar)
    (hfind : findLugar db lid = some l) :
    findLugar (soft_delete_lugar lid u db) lid = some { l with activo := false } := by
  rw [soft_delete_lugar_eq db lid u l hfind]
  have hfind' : db.lugares.find? (fun r => r.id == lid) = some l := hfind
  simpa [findLugar] using find_map_upd (fun r => r.id)
    (fun r => { r with activo := false }) (fun r => rfl) lid db.lugares l hfind'

/-- C5: for every active student or place, soft_delete then restore on the
same identifier restores the stored table exactly (so the row is identical to
the pre-delete state), appending exactly two audit entries — a DELETE then an
UPDATE — whose snapshots equal the pre-state except for the `activo` flag.
The id-uniqueness hypotheses reflect the PRIMARY KEY constraint. -/
theorem C5_soft_delete_restore
    (db : DB) (aid : Nat) (u1 u2 : Option String) (a : Alumno)
    (hnd : (db.alumnos.map (fun r => r.id)).Nodup)
    (hfind : findAlumno db aid = some a) (hact : a.activo = true)
    (db2 : DB) (lid : Nat) (v1 v2 : Option String) (l : Lugar)
    (hnd2 : (db2.lugares.map (fun r => r.id)).Nodup)
    (hfind2 : findLugar db2 lid = some l) (hact2 : l.activo = true) :
    (restore_alumno aid u2 (soft_delete_alumno aid u1 db)).alumnos = db.alumnos ∧
    (restore_alumno aid u2 (soft_delete_alumno aid u1 db)).auditoria =
      db.auditoria ++
        [⟨db.seq_auditoria, u1, "DELETE", "alumnos", aid, some (alumnoRowJ a),
          some (alumnoJ a.id a.nombre a.carrera false)⟩,
         ⟨db.seq_auditoria + 1, u2, "UPDATE", "alumnos", aid,
          some (alumnoJ a.id a.nombre a.carrera false), some (alumnoRowJ a)⟩] ∧
    (restore_lugar lid v2 (soft_delete_lugar lid v1 db2)).lugares = db2.lugares ∧
    (restore_lugar lid v2 (soft_delete_lugar lid v1 db2)).auditoria =
      db2.auditoria ++
        [⟨db2.seq_auditoria, v1, "DELETE", "lugares", lid, some (lugarRowJ l),
          some (lugarJ l.id l.nombre false)⟩,
         ⟨db2.seq_auditoria + 1, v2, "UPDATE", "lugares", lid,
          some (lugarJ l.id l.nombre false), some (lugarRowJ l)⟩] := by
  obtain ⟨ai, an, ac, aact⟩ := a
  have hact' : aact = true := hact
  subst hact'
  obtain ⟨li, ln, lact⟩ := l
  have hact2' : lact = true := hact2
  subst hact2'
  have hfindA : db.alumnos.find? (fun r => r.id == aid) = some ⟨ai, an, ac, true⟩ := hfind
  have hfindL : db2.lugares.find? (fun r => r.id == lid) = some ⟨li, ln, true⟩ := hfind2
  have h1 := soft_delete_alumno_eq db aid u1 ⟨ai, an, ac, true⟩ hfind
  have h2 := findAlumno_soft_delete db aid u1 ⟨ai, an, ac, true⟩ hfind
  have h3 := restore_alumno_eq _ aid u2 _ h2
  have hcompA := map_upd_map_upd (fun r : Alumno => r.id)
    (fun r => { r with activo := false }) (fun r => { r with activo := true }) aid
    (fun r => rfl) (fun r => rfl) db.alumnos
  have hselfA := map_upd_eq_self (fun r : Alumno => r.id)
    (fun r => { r with activo := true }) aid db.alumnos ⟨ai, an, ac, true⟩ hnd hfindA rfl
  have g1 := soft_delete_lugar_eq db2 lid v1 ⟨li, ln, true⟩ hfind2
  have g2 := findLugar_soft_delete db2 lid v1 ⟨li, ln, true⟩ hfind2
  have g3 := restore_lugar_eq _ lid v2 _ g2
  have hcompL := map_upd_map_upd (fun r : Lugar => r.id)
    (fun r => { r with activo := false }) (fun r => { r with activo := true }) lid
    (fun r => rfl) (fun r => rfl) db2.lugares
  have hselfL := map_upd_eq_self (fun r : Lugar => r.id)
    (fun r => { r with activo := true }) lid db2.lugares ⟨li, ln, true⟩ hnd2 hfindL rfl
  refine ⟨?_, ?_, ?_, ?_⟩
  · rw [h3, h1]
    simp only []
    rw [hcompA, hselfA]
  · rw [h3, h1]
    simp [alumnoRowJ, alumnoJ]
  · rw [g3, g1]
    simp only []
    rw [hcompL, hselfL]
  · rw [g3, g1]
    simp [lugarRowJ, lugarJ]

/-- Witness for C5 on a one-row student table and a one-row place table. -/
theorem C5_soft_delete_restore_witness :
    (restore_alumno 1 none (soft_delete_alumno 1 none
      { DB0 with alumnos := [⟨1, "ana", "cs", true⟩] })).alumnos =
        [⟨1, "ana", "cs", true⟩] ∧
    (restore_alumno 1 none (soft_delete_alumno 1 none
      { DB0 with alumnos := [⟨1, "ana", "cs", true⟩] })).auditoria =
      [] ++
        [⟨1, none, "DELETE", "alumnos", 1, some (alumnoRowJ ⟨1, "ana", "cs", true⟩),
          some (alumnoJ 1 "ana" "cs" false)⟩,
         ⟨1 + 1, none, "UPDATE", "alumnos", 1,
          some (alumnoJ 1 "ana" "cs" false), some (alumnoRowJ ⟨1, "ana", "cs", true⟩)⟩] ∧
    (restore_lugar 1 none (soft_delete_lugar 1 none
      { DB0 with lugares := [⟨1, "lab", true⟩] })).lugares = [⟨1, "lab", true⟩] ∧
    (restore_lugar 1 none (soft_delete_lugar 1 none
      { DB0 with lugares := [⟨1, "lab", true⟩] })).auditoria =
      [] ++
        [⟨1, none, "DELETE", "lugares", 1, some (lugarRowJ ⟨1, "lab", true⟩),
          some (lugarJ 1 "lab" false)⟩,
         ⟨1 + 1, none, "UPDATE", "lugares", 1,
          some (lugarJ 1 "lab" false), some (lugarRowJ ⟨1, "lab", true⟩)⟩] :=
  C5_soft_delete_restore { DB0 with alumnos := [⟨1, "ana", "cs", true⟩] } 1 none none
    ⟨1, "ana", "cs", true⟩ (by simp [DB0]) (by decide) rfl
    { DB0 with lugares := [⟨1, "lab", true⟩] } 1 none none
    ⟨1, "lab", true⟩ (by simp [DB0]) (by decide) rfl

/-- C10: soft-deleting an existing but already-inactive student or place
leaves the stored table completely unchanged yet still appends one DELETE
audit entry per call, whose before- and after-snapshots both show the
inactive row; a second call changes the table no further but appends a
second entry, so the operation is idempotent on the table and not on the
audit log. -/
theorem C10_soft_delete_inactive_frame
    (db : DB) (aid : Nat) (u1 u2 : Option String) (a : Alumno)
    (hnd : (db.alumnos.map (fun r => r.id)).Nodup)
    (hfind : findAlumno db aid = some a) (hinact : a.activo = false)
    (db2 : DB) (lid : Nat) (v1 : Option String) (l : Lugar)
    (hnd2 : (db2.lugares.map (fun r => r.id)).Nodup)
    (hfind2 : findLugar db2 lid = some l) (hinact2 : l.activo = false) :
    (soft_delete_alumno aid u1 db).alumnos = db.alumnos ∧
    (soft_delete_alumno aid u1 db).auditoria = db.auditoria ++
      [⟨db.seq_auditoria, u1, "DELETE", "alumnos", aid,
        some (alumnoRowJ a), some (alumnoRowJ a)⟩] ∧
    (soft_delete_alumno aid u2 (soft_delete_alumno aid u1 db)).alumnos = db.alumnos ∧
    (soft_delete_alumno aid u2 (soft_delete_alumno aid u1 db)).auditoria =
      db.auditoria ++
        [⟨db.seq_auditoria, u1, "DELETE", "alumnos", aid,
          some (alumnoRowJ a), some (alumnoRowJ a)⟩,
         ⟨db.seq_auditoria + 1, u2, "DELETE", "alumnos", aid,
          some (alumnoRowJ a), some (alumnoRowJ a)⟩] ∧
    (soft_delete_lugar lid v1 db2).lugares = db2.lugares ∧
    (soft_delete_lugar lid v1 db2).auditoria = db2.auditoria ++
      [⟨db2.seq_auditoria, v1, "DELETE", "lugares", lid,
        some (lugarRowJ l), some (lugarRowJ l)⟩] := by
  obtain ⟨ai, an, ac, aact⟩ := a
  have ha' : aact = false := hinact
  subst ha'
  obtain ⟨li, ln, lact⟩ := l
  have hl' : lact = false := hinact2
  subst hl'
  have hfindA : db.alumnos.find? (fun r => r.id == aid) = some ⟨ai, an, ac, false⟩ := hfind
  have hselfA := map_upd_eq_self (fun r : Alumno => r.id)
    (fun r => { r with activo := false }) aid db.alumnos ⟨ai, an, ac, false⟩ hnd hfindA rfl
  have h1 := soft_delete_alumno_eq db aid u1 ⟨ai, an, ac, false⟩ hfind
  have hd1eq : soft_delete_alumno aid u1 db =
      { db with
        auditoria := db.auditoria ++
          [⟨db.seq_auditoria, u1, "DELETE", "alumnos", aid,
            some (alumnoJ ai an ac false), some (alumnoJ ai an ac false)⟩]
        seq_auditoria := db.seq_auditoria + 1 } := by
    rw [h1, hselfA]
  have hfind1 : findAlumno (soft_delete_alumno aid u1 db) aid = some ⟨ai, an, ac, false⟩ := by
    rw [hd1eq]
    exact hfind
  have h2 := soft_delete_alumno_eq (soft_delete_alumno aid u1 db) aid u2
    ⟨ai, an, ac, false⟩ hfind1
  have hfindL : db2.lugares.find? (fun r => r.id == lid) = some ⟨li, ln, false⟩ := hfind2
  have hselfL := map_upd_eq_self (fun r : Lugar => r.id)
    (fun r => { r with activo := false }) lid db2.lugares ⟨li, ln, false⟩ hnd2 hfindL rfl
  have g1 := soft_delete_lugar_eq db2 lid v1 ⟨li, ln, false⟩ hfind2
  refine ⟨?_, ?_, ?_, ?_, ?_, ?_⟩
  · rw [h1]
    simp only []
    rw [hselfA]
  · rw [h1]
    simp [alumnoRowJ, alumnoJ]
  · rw [h2, hd1eq]
    simp only []
    rw [hselfA]
  · rw [h2, hd1eq]
    simp [alumnoRowJ, alumnoJ]
  · rw [g1]
    simp only []
    rw [hselfL]
  · rw [g1]
    simp [lugarRowJ, lugarJ]

/-- Witness for C10 on one-row tables holding an inactive student and place. -/
theorem C10_soft_delete_inactive_frame_witness :
    (soft_delete_alumno 1 none { DB0 with alumnos := [⟨1, "ana", "cs", false⟩] }).alumnos =
      [⟨1, "ana", "cs", false⟩] ∧
    (soft_delete_alumno 1 none { DB0 with alumnos := [⟨1, "ana", "cs", false⟩] }).auditoria =
      [] ++ [⟨1, none, "DELETE", "alumnos", 1,
        some (alumnoRowJ ⟨1, "ana", "cs", false⟩), some (alumnoRowJ ⟨1, "ana", "cs", false⟩)⟩] ∧
    (soft_delete_alumno 1 (some "adm") (soft_delete_alumno 1 none
      { DB0 with alumnos := [⟨1, "ana", "cs", false⟩] })).alumnos =
      [⟨1, "ana", "cs", false⟩] ∧
    (soft_delete_alumno 1 (some "adm") (soft_delete_alumno 1 none
      { DB0 with alumnos := [⟨1, "ana", "cs", false⟩] })).auditoria =
      [] ++ [⟨1, none, "DELETE", "alumnos", 1,
          some (alumnoRowJ ⟨1, "ana", "cs", false⟩), some (alumnoRowJ ⟨1, "ana", "cs", false⟩)⟩,
        ⟨1 + 1, some "adm", "DELETE", "alumnos", 1,
          some (alumnoRowJ ⟨1, "ana", "cs", false⟩), some (alumnoRowJ ⟨1, "ana", "cs", false⟩)⟩] ∧
    (soft_delete_lugar 1 none { DB0 with lugares := [⟨1, "lab", false⟩] }).lugares =
      [⟨1, "lab", false⟩] ∧
    (soft_delete_lugar 1 none { DB0 with lugares := [⟨1, "lab", false⟩] }).auditoria =
      [] ++ [⟨1, none, "DELETE", "lugares", 1,
        some (lugarRowJ ⟨1, "lab", false⟩), some (lugarRowJ ⟨1, "lab", false⟩)⟩] :=
  C10_soft_delete_inactive_frame { DB0 with alumnos := [⟨1, "ana", "cs", false⟩] } 1
    none (some "adm") ⟨1, "ana", "cs", false⟩ (by simp [DB0]) (by decide) rfl
    { DB0 with lugares := [⟨1, "lab", false⟩] } 1 none
    ⟨1, "lab", false⟩ (by simp [DB0]) (by decide) rfl

theorem validar_registro_eq (db : DB) (rid : Nat) (vname : String) (u : Option String)
    (r : Registro) (hfind : findRegistro db rid = some r) :
    validar_registro rid vname u db =
      { db with
        registros := db.registros.map fun x =>
          if x.id = rid then { x with validado := true, validador := some (pyStrip vname) } else x
        auditoria := db.auditoria ++
          [⟨db.seq_auditoria, u, "VALIDAR", "registros", rid,
            some (registroRowJ r),
            some (registroRowJ { r with validado := true, validador := some (pyStrip vname) })⟩]
        seq_auditoria := db.seq_auditoria + 1 } := by
  have hfind' : db.registros.find? (fun x => x.id == rid) = some r := hfind
  have hafter := find_map_upd (fun x : Registro => x.id)
    (fun x => { x with validado := true, validador := some (pyStrip vname) })
    (fun x => rfl) rid db.registros r hfind'
  have hafter2 : findRegistro { db with
      registros := db.registros.map fun x =>
        if x.id = rid then { x with validado := true, validador := some (pyStrip vname) } else x }
      rid = some { r with validado := true, validador := some (pyStrip vname) } := hafter
  simp only [validar_registro]
  rw [show findRegistro db rid = some r from hfind, hafter2]
  simp [_audit, jsonOrNone, registroRowJ]

theorem insert_registro_eq (db : DB) (aid lid : Nat) (act fech : String) (hrs : Rat)
    (anio sem : Int) (u : Option String)
    (hc : (db.alumnos.any (·.id == aid)) = true ∧ (db.lugares.any (·.id == lid)) = true ∧
      0 < hrs ∧ (sem = 1 ∨ sem = 2)) :
    insert_registro aid lid act fech hrs anio sem u db =
      (some db.seq_registros,
       { db with
         seq_registros := db.seq_registros + 1
         registros := db.registros ++
           [⟨db.seq_registros, aid, lid, pyStrip act, fech, hrs, anio, sem, false, none⟩]
         auditoria := db.auditoria ++
           [⟨db.seq_auditoria, u, "INSERT", "registros", db.seq_registros, none,
             some [("id", .jnat db.seq_registros), ("alumno_id", .jnat aid),
                   ("lugar_id", .jnat lid), ("actividad", .jstr act),
                   ("fecha", .jstr fech), ("horas", .jrat hrs), ("anio", .jint anio),
                   ("semestre", .jint sem), ("validado", .jbool false),
                   ("validador", .jnull)]⟩]
         seq_auditoria := db.seq_auditoria + 1 }) := by
  obtain ⟨h1, h2, h3, h4⟩ := hc
  simp [insert_registro, h1, h2, h3, h4, _audit, jsonOrNone]

theorem create_user_eq (db : DB) (un pw rl : String) (al : Option Nat) (salt : List Nat)
    (hfree : ((db.usuarios.any (·.username == pyLower (pyStrip un))) ||
      (match al with
       | none => false
       | some aid => ! db.alumnos.any (·.id == aid))) = false) :
    create_user un pw rl al salt db =
      (some db.seq_usuarios,
       { db with
         seq_usuarios := db.seq_usuarios + 1
         usuarios := db.usuarios ++
           [⟨db.seq_usuarios, pyLower (pyStrip un), rl, al,
             (_pbkdf2_hash pw salt 100000).salt_b64, (_pbkdf2_hash pw salt 100000).iters,
             (_pbkdf2_hash pw salt 100000).hash_b64⟩]
         auditoria := db.auditoria ++
           [⟨db.seq_auditoria, some un, "INSERT", "usuarios", db.seq_usuarios, none,
             some [("username", .jstr un), ("role", .jstr rl), ("alumno_id", jOptNat al)]⟩]
         seq_auditoria := db.seq_auditoria + 1 }) := by
  simp [create_user, hfree, _audit, jsonOrNone]

theorem findAlumno_restore (db : DB) (aid : Nat) (u : Option String) (a : Alumno)
    (hfind : findAlumno db aid = some a) :
    findAlumno (restore_alumno aid u db) aid = some { a with activo := true } := by
  rw [restore_alumno_eq db aid u a hfind]
  have hfind' : db.alumnos.find? (fun r => r.id == aid) = some a := hfind
  simpa [findAlumno] using find_map_upd (fun r => r.id)
    (fun r => { r with activo := true }) (fun r => rfl) aid db.alumnos a hfind'

theorem findLugar_restore (db : DB) (lid : Nat) (u : Option String) (l : Lugar)
    (hfind : findLugar db lid = some l) :
    findLugar (restore_lugar lid u db) lid = some { l with activo := true } := by
  rw [restore_lugar_eq db lid u l hfind]
  have hfind' : db.lugares.find? (fun r => r.id == lid) = some l := hfind
  simpa [findLugar] using find_map_upd (fun r => r.id)
    (fun r => { r with activo := true }) (fun r => rfl) lid db.lugares l hfind'

theorem findRegistro_validar (db : DB) (rid : Nat) (vname : String) (u : Option String)
    (r : Registro) (hfind : findRegistro db rid = some r) :
    findRegistro (validar_registro rid vname u db) rid =
      some { r with validado := true, validador := some (pyStrip vname) } := by
  rw [validar_registro_eq db rid vname u r hfind]
  have hfind' : db.registros.find? (fun x => x.id == rid) = some r := hfind
  simpa [findRegistro] using find_map_upd (fun x : Registro => x.id)
    (fun x => { x with validado := true, validador := some (pyStrip vname) })
    (fun x => rfl) rid db.registros r hfind'

/-- Counterexample to C1 as stated: inserting a student whose name carries
leading/trailing whitespace stores the trimmed row, yet the single INSERT
audit entry's after-snapshot keeps the raw text, so the snapshot does not
equal the row's observable stored state. -/
theorem C1_counterexample :
    (insert_alumno " Ana " "Ing" none DB0).2.alumnos = [⟨1, "Ana", "Ing", true⟩] ∧
    (insert_alumno " Ana " "Ing" none DB0).2.auditoria =
      [⟨1, none, "INSERT", "alumnos", 1, none, some (alumnoJ 1 " Ana " "Ing" true)⟩] ∧
    some (alumnoJ 1 " Ana " "Ing" true) ≠ some (alumnoRowJ ⟨1, "Ana", "Ing", true⟩) := by
  decide

/-- C1 amended: every mutating store call appends exactly one audit entry.
For soft_delete, restore and validate the after-snapshot equals the row's
observable stored state immediately after the call. For inserts of students,
places and records the after-snapshot carries the raw input text while the
stored row is trimmed, so snapshot and stored state coincide exactly when the
text inputs carry no leading/trailing whitespace; for user creation the
snapshot records only the raw username, role and student link. -/
theorem C1_audit_completeness_amended
    (dbI : DB) (n c : String) (uI : Option String)
    (dbL : DB) (nm : String) (uL : Option String)
    (dbD : DB) (did : Nat) (uD : Option String) (ad : Alumno)
    (hD : findAlumno dbD did = some ad)
    (dbR : DB) (rid : Nat) (uR : Option String) (ar : Alumno)
    (hR : findAlumno dbR rid = some ar)
    (dbDL : DB) (dld : Nat) (uDL : Option String) (ld : Lugar)
    (hDL : findLugar dbDL dld = some ld)
    (dbRL : DB) (rld : Nat) (uRL : Option String) (lr : Lugar)
    (hRL : findLugar dbRL rld = some lr)
    (dbV : DB) (vid : Nat) (vname : String) (uV : Option String) (rv : Registro)
    (hV : findRegistro dbV vid = some rv)
    (dbG : DB) (ga gl : Nat) (act fech : String) (hrs : Rat) (ganio gsem : Int)
    (uG : Option String)
    (hG : (dbG.alumnos.any (·.id == ga)) = true ∧ (dbG.lugares.any (·.id == gl)) = true ∧
      0 < hrs ∧ (gsem = 1 ∨ gsem = 2))
    (dbU : DB) (un pw rl : String) (al : Option Nat) (salt : List Nat)
    (hU : ((dbU.usuarios.any (·.username == pyLower (pyStrip un))) ||
      (match al with
       | none => false
       | some aid2 => ! dbU.alumnos.any (·.id == aid2))) = false) :
    ((insert_alumno n c uI dbI).2.auditoria = dbI.auditoria ++
      [⟨dbI.seq_auditoria, uI, "INSERT", "alumnos", dbI.seq_alumnos, none,
        some (alumnoJ dbI.seq_alumnos n c true)⟩] ∧
     (insert_alumno n c uI dbI).2.alumnos = dbI.alumnos ++
      [⟨dbI.seq_alumnos, pyStrip n, pyStrip c, true⟩] ∧
     (pyStrip n = n → pyStrip c = c →
       alumnoJ dbI.seq_alumnos n c true =
         alumnoRowJ ⟨dbI.seq_alumnos, pyStrip n, pyStrip c, true⟩)) ∧
    ((insert_lugar nm uL dbL).2.auditoria = dbL.auditoria ++
      [⟨dbL.seq_auditoria, uL, "INSERT", "lugares", dbL.seq_lugares, none,
        some (lugarJ dbL.seq_lugares nm true)⟩] ∧
     (insert_lugar nm uL dbL).2.lugares = dbL.lugares ++
      [⟨dbL.seq_lugares, pyStrip nm, true⟩] ∧
     (pyStrip nm = nm →
       lugarJ dbL.seq_lugares nm true = lugarRowJ ⟨dbL.seq_lugares, pyStrip nm, true⟩)) ∧
    ((soft_delete_alumno did uD dbD).auditoria = dbD.auditoria ++
      [⟨dbD.seq_auditoria, uD, "DELETE", "alumnos", did, some (alumnoRowJ ad),
        some (alumnoRowJ { ad with activo := false })⟩] ∧
     findAlumno (soft_delete_alumno did uD dbD) did = some { ad with activo := false }) ∧
    ((restore_alumno rid uR dbR).auditoria = dbR.auditoria ++
      [⟨dbR.seq_auditoria, uR, "UPDATE", "alumnos", rid, some (alumnoRowJ ar),
        some (alumnoRowJ { ar with activo := true })⟩] ∧
     findAlumno (restore_alumno rid uR dbR) rid = some { ar with activo := true }) ∧
    ((soft_delete_lugar dld uDL dbDL).auditoria = dbDL.auditoria ++
      [⟨dbDL.seq_auditoria, uDL, "DELETE", "lugares", dld, some (lugarRowJ ld),
        some (lugarRowJ { ld with activo := false })⟩] ∧
     findLugar (soft_delete_lugar dld uDL dbDL) dld = some { ld with activo := false }) ∧
    ((restore_lugar rld uRL dbRL).auditoria = dbRL.auditoria ++
      [⟨dbRL.seq_auditoria, uRL, "UPDATE", "lugares", rld, some (lugarRowJ lr),
        some (lugarRowJ { lr with activo := true })⟩] ∧
     findLugar (restore_lugar rld uRL dbRL) rld = some { lr with activo := true }) ∧
    ((validar_registro vid vname uV dbV).auditoria = dbV.auditoria ++
      [⟨dbV.seq_auditoria, uV, "VALIDAR", "registros", vid, some (registroRowJ rv),
        some (registroRowJ { rv with validado := true, validador := some (pyStrip vname) })⟩] ∧
     findRegistro (validar_registro vid vname uV dbV) vid =
       some { rv with validado := true, validador := some (pyStrip vname) }) ∧
    (((insert_registro ga gl act fech hrs ganio gsem uG dbG).2).auditoria =
       dbG.auditoria ++
        [⟨dbG.seq_auditoria, uG, "INSERT", "registros", dbG.seq_registros, none,
          some [("id", .jnat dbG.seq_registros), ("alumno_id", .jnat ga),
                ("lugar_id", .jnat gl), ("actividad", .jstr act), ("fecha", .jstr fech),
                ("horas", .jrat hrs), ("anio", .jint ganio), ("semestre", .jint gsem),
                ("validado", .jbool false), ("validador", .jnull)]⟩] ∧
     ((insert_registro ga gl act fech hrs ganio gsem uG dbG).2).registros =
       dbG.registros ++
        [⟨dbG.seq_registros, ga, gl, pyStrip act, fech, hrs, ganio, gsem, false, none⟩] ∧
     (pyStrip act = act →
       ([("id", JVal.jnat dbG.seq_registros), ("alumno_id", JVal.jnat ga),
         ("lugar_id", JVal.jnat gl), ("actividad", JVal.jstr act), ("fecha", JVal.jstr fech),
         ("horas", JVal.jrat hrs), ("anio", JVal.jint ganio), ("semestre", JVal.jint gsem),
         ("validado", JVal.jbool false), ("validador", JVal.jnull)] : JObj) =
        registroRowJ ⟨dbG.seq_registros, ga, gl, pyStrip act, fech, hrs, ganio, gsem,
          false, none⟩)) ∧
    (((create_user un pw rl al salt dbU).2).auditoria = dbU.auditoria ++
      [⟨dbU.seq_auditoria, some un, "INSERT", "usuarios", dbU.seq_usuarios, none,
        some [("username", .jstr un), ("role", .jstr rl), ("alumno_id", jOptNat al)]⟩] ∧
     ((create_user un pw rl al salt dbU).2).usuarios = dbU.usuarios ++
       [⟨dbU.seq_usuarios, pyLower (pyStrip un), rl, al,
         (_pbkdf2_hash pw salt 100000).salt_b64, (_pbkdf2_hash pw salt 100000).iters,
         (_pbkdf2_hash pw salt 100000).hash_b64⟩]) := by
  refine ⟨⟨?_, ?_, ?_⟩, ⟨?_, ?_, ?_⟩, ⟨?_, ?_⟩, ⟨?_, ?_⟩, ⟨?_, ?_⟩, ⟨?_, ?_⟩, ⟨?_, ?_⟩,
    ⟨?_, ?_, ?_⟩, ⟨?_, ?_⟩⟩
  · simp [insert_alumno, _audit, jsonOrNone, alumnoJ]
  · simp [insert_alumno, _audit]
  · intro h1 h2
    simp [alumnoJ, alumnoRowJ, h1, h2]
  · simp [insert_lugar, _audit, jsonOrNone, lugarJ]
  · simp [insert_lugar, _audit]
  · intro h1
    simp [lugarJ, lugarRowJ, h1]
  · rw [soft_delete_alumno_eq dbD did uD ad hD]
    simp [alumnoRowJ, alumnoJ]
  · exact findAlumno_soft_delete dbD did uD ad hD
  · rw [restore_alumno_eq dbR rid uR ar hR]
    simp [alumnoRowJ, alumnoJ]
  · exact findAlumno_restore dbR rid uR ar hR
  · rw [soft_delete_lugar_eq dbDL dld uDL ld hDL]
    simp [lugarRowJ, lugarJ]
  · exact findLugar_soft_delete dbDL dld uDL ld hDL
  · rw [restore_lugar_eq dbRL rld uRL lr hRL]
    simp [lugarRowJ, lugarJ]
  · exact findLugar_restore dbRL rld uRL lr hRL
  · rw [validar_registro_eq dbV vid vname uV rv hV]
  · exact findRegistro_validar dbV vid vname uV rv hV
  · rw [insert_registro_eq dbG ga gl act fech hrs ganio gsem uG hG]
  · rw [insert_registro_eq dbG ga gl act fech hrs ganio gsem uG hG]
  · intro h1
    simp [registroRowJ, h1]
  · rw [create_user_eq dbU un pw rl al salt hU]
  · rw [create_user_eq dbU un pw rl al salt hU]

/-- Populated database for concrete witnesses: one active student, one active
place, one unvalidated record, no local users. -/
def DBW : DB :=
  ⟨[⟨1, "ana", "cs", true⟩], [⟨1, "lab", true⟩],
   [⟨1, 1, 1, "act", "2024-03-01", 2, 2024, 1, false, none⟩], [], [], 2, 2, 2, 1, 1⟩

/-- Witness for the amended C1 at a concrete student insert, student and
place soft deletes and restores, a validation and a user creation. -/
theorem C1_audit_completeness_amended_witness :
    ((insert_alumno "ana" "cs" none DB0).2.auditoria = DB0.auditoria ++
      [⟨DB0.seq_auditoria, none, "INSERT", "alumnos", DB0.seq_alumnos, none,
        some (alumnoJ DB0.seq_alumnos "ana" "cs" true)⟩] ∧
     (insert_alumno "ana" "cs" none DB0).2.alumnos = DB0.alumnos ++
      [⟨DB0.seq_alumnos, pyStrip "ana", pyStrip "cs", true⟩] ∧
     (pyStrip "ana" = "ana" → pyStrip "cs" = "cs" →
       alumnoJ DB0.seq_alumnos "ana" "cs" true =
         alumnoRowJ ⟨DB0.seq_alumnos, pyStrip "ana", pyStrip "cs", true⟩)) ∧
    ((soft_delete_alumno 1 none DBW).auditoria = DBW.auditoria ++
      [⟨DBW.seq_auditoria, none, "DELETE", "alumnos", 1,
        some (alumnoRowJ ⟨1, "ana", "cs", true⟩),
        some (alumnoRowJ { (⟨1, "ana", "cs", true⟩ : Alumno) with activo := false })⟩] ∧
     findAlumno (soft_delete_alumno 1 none DBW) 1 =
       some { (⟨1, "ana", "cs", true⟩ : Alumno) with activo := false }) ∧
    ((soft_delete_lugar 1 none DBW).auditoria = DBW.auditoria ++
      [⟨DBW.seq_auditoria, none, "DELETE", "lugares", 1,
        some (lugarRowJ ⟨1, "lab", true⟩),
        some (lugarRowJ { (⟨1, "lab", true⟩ : Lugar) with activo := false })⟩] ∧
     findLugar (soft_delete_lugar 1 none DBW) 1 =
       some { (⟨1, "lab", true⟩ : Lugar) with activo := false }) ∧
    ((restore_lugar 1 none DBW).auditoria = DBW.auditoria ++
      [⟨DBW.seq_auditoria, none, "UPDATE", "lugares", 1,
        some (lugarRowJ ⟨1, "lab", true⟩),
        some (lugarRowJ { (⟨1, "lab", true⟩ : Lugar) with activo := true })⟩] ∧
     findLugar (restore_lugar 1 none DBW) 1 =
       some { (⟨1, "lab", true⟩ : Lugar) with activo := true }) ∧
    ((validar_registro 1 "boss" none DBW).auditoria = DBW.auditoria ++
      [⟨DBW.seq_auditoria, none, "VALIDAR", "registros", 1,
        some (registroRowJ ⟨1, 1, 1, "act", "2024-03-01", 2, 2024, 1, false, none⟩),
        some (registroRowJ { (⟨1, 1, 1, "act", "2024-03-01", 2, 2024, 1, false, none⟩ :
          Registro) with validado := true, validador := some (pyStrip "boss") })⟩] ∧
     findRegistro (validar_registro 1 "boss" none DBW) 1 =
       some { (⟨1, 1, 1, "act", "2024-03-01", 2, 2024, 1, false, none⟩ : Registro) with
         validado := true, validador := some (pyStrip "boss") }) ∧
    (((create_user "Bob" "pw" "Admin" none [] DBW).2).auditoria = DBW.auditoria ++
      [⟨DBW.seq_auditoria, some "Bob", "INSERT", "usuarios", DBW.seq_usuarios, none,
        some [("username", .jstr "Bob"), ("role", .jstr "Admin"),
              ("alumno_id", jOptNat none)]⟩] ∧
     ((create_user "Bob" "pw" "Admin" none [] DBW).2).usuarios = DBW.usuarios ++
       [⟨DBW.seq_usuarios, pyLower (pyStrip "Bob"), "Admin", none,
         (_pbkdf2_hash "pw" [] 100000).salt_b64, (_pbkdf2_hash "pw" [] 100000).iters,
         (_pbkdf2_hash "pw" [] 100000).hash_b64⟩]) := by
  have H := C1_audit_completeness_amended DB0 "ana" "cs" none DB0 "lab" none
    DBW 1 none ⟨1, "ana", "cs", true⟩ (by decide)
    DBW 1 none ⟨1, "ana", "cs", true⟩ (by decide)
    DBW 1 none ⟨1, "lab", true⟩ (by decide)
    DBW 1 none ⟨1, "lab", true⟩ (by decide)
    DBW 1 "boss" none ⟨1, 1, 1, "act", "2024-03-01", 2, 2024, 1, false, none⟩ (by decide)
    DBW 1 1 "act2" "2024-04-01" 3 2024 1 none ⟨by decide, by decide, by decide, by decide⟩
    DBW "Bob" "pw" "Admin" none [] (by decide)
  exact ⟨H.1, H.2.2.1, H.2.2.2.2.1, H.2.2.2.2.2.1, H.2.2.2.2.2.2.1, H.2.2.2.2.2.2.2.2⟩

/-- Session with no keys set. -/
def emptySession : Session := fun _ => none

theorem get_admin_students_preserves (s : Session) (k : String)
    (hk : k ≠ "microsoft_admin_students") : (get_admin_students s).2 k = s k := by
  unfold get_admin_students
  split
  · rfl
  · simp [setK, hk]

/-- Counterexample to C8 as stated: after a federated (Microsoft) login and a
logout, the keys `email`, `display_name` and `auth_method` established by the
federated path are still present, because `logout` deletes only the four keys
in `SESSION_KEYS`. -/
theorem C8_counterexample :
    logout (ms_establish_session "jua25837@uvg.edu.gt" "Jua" emptySession) "email" =
      some (.sstr "jua25837@uvg.edu.gt") ∧
    logout (ms_establish_session "jua25837@uvg.edu.gt" "Jua" emptySession) "display_name" =
      some (.sstr "Jua") ∧
    logout (ms_establish_session "jua25837@uvg.edu.gt" "Jua" emptySession) "auth_method" =
      some (.sstr "Microsoft") := by
  decide

/-- C8 amended: `logout` unconditionally deletes exactly the four keys
`auth`, `user`, `role`, `alumno_id` and preserves every other key. Since the
local path sets only those four keys, a locally-established session is fully
erased by logout; the federated path's extra keys `email`, `display_name` and
`auth_method` survive logout. -/
theorem C8_logout_amended (s : Session) (k : String) (db : DB) (u p : String)
    (b : Bool) (s' : Session) (hlogin : login db u p s = some (b, s'))
    (email dn : String) :
    (k ∈ SESSION_KEYS → logout s k = none) ∧
    (k ∉ SESSION_KEYS → logout s k = s k) ∧
    (∀ k2, logout s' k2 = logout s k2) ∧
    (logout (ms_establish_session email dn s) "email" = some (.sstr email) ∧
     logout (ms_establish_session email dn s) "display_name" = some (.sstr dn) ∧
     logout (ms_establish_session email dn s) "auth_method" = some (.sstr "Microsoft")) := by
  refine ⟨fun hk => by simp [logout, hk], fun hk => by simp [logout, hk], ?_, ?_, ?_, ?_⟩
  · intro k2
    cases hv : verify_user db u p with
    | none => rw [login, hv] at hlogin; cases hlogin
    | some o =>
      cases o with
      | none =>
        rw [login, hv] at hlogin
        obtain ⟨-, rfl⟩ := Prod.mk.injEq .. ▸ Option.some.injEq _ _ ▸ hlogin
        rfl
      | some info =>
        rw [login, hv] at hlogin
        obtain ⟨-, rfl⟩ := Prod.mk.injEq .. ▸ Option.some.injEq _ _ ▸ hlogin
        by_cases hk2 : k2 ∈ SESSION_KEYS
        · simp [logout, hk2]
        · simp only [SESSION_KEYS, List.mem_cons, List.not_mem_nil, or_false, not_or] at hk2
          obtain ⟨h1, h2, h3, h4⟩ := hk2
          simp [logout, SESSION_KEYS, setK, h1, h2, h3, h4]
  · simp only [ms_establish_session]
    simp only [logout, SESSION_KEYS]
    rw [if_neg (by decide)]
    simp only [removeK]
    rw [if_neg (by decide), get_admin_students_preserves _ _ (by decide)]
    simp [setK]
  · simp only [ms_establish_session]
    simp only [logout, SESSION_KEYS]
    rw [if_neg (by decide)]
    simp only [removeK]
    rw [if_neg (by decide), get_admin_students_preserves _ _ (by decide)]
    simp [setK]
  · simp only [ms_establish_session]
    simp only [logout, SESSION_KEYS]
    rw [if_neg (by decide)]
    simp only [removeK]
    rw [if_neg (by decide), get_admin_students_preserves _ _ (by decide)]
    simp [setK]

/-- Witness for the amended C8 at a concrete failed local login and a
concrete federated session. -/
theorem C8_logout_amended_witness :
    ("role" ∈ SESSION_KEYS → logout emptySession "role" = none) ∧
    ("role" ∉ SESSION_KEYS → logout emptySession "role" = emptySession "role") ∧
    (∀ k2, logout emptySession k2 = logout emptySession k2) ∧
    (logout (ms_establish_session "jua25837@uvg.edu.gt" "Jua" emptySession) "email" =
       some (.sstr "jua25837@uvg.edu.gt") ∧
     logout (ms_establish_session "jua25837@uvg.edu.gt" "Jua" emptySession) "display_name" =
       some (.sstr "Jua") ∧
     logout (ms_establish_session "jua25837@uvg.edu.gt" "Jua" emptySession) "auth_method" =
       some (.sstr "Microsoft")) :=
  C8_logout_amended emptySession "role" DB0 "x" "y" false emptySession rfl
    "jua25837@uvg.edu.gt" "Jua"

/-- C7: local login fails with the identical externally observable outcome
whether the username is missing or the password verification fails — both
return `False` and leave the session untouched, so a caller cannot tell which
check failed. (Internally `verify_user` distinguishes the two branches, but
both collapse to the same `None`.) -/
theorem C7_no_username_enumeration
    (db : DB) (s : Session) (u1 p1 u2 p2 : String)
    (h1 : db.usuarios.find? (·.username == pyLower (pyStrip u1)) = none)
    (r : Usuario)
    (h2 : db.usuarios.find? (·.username == pyLower (pyStrip u2)) = some r)
    (h3 : _pbkdf2_verify p2 r.salt_b64 r.iters r.hash_b64 = some false) :
    login db u1 p1 s = some (false, s) ∧
    login db u2 p2 s = some (false, s) ∧
    login db u1 p1 s = login db u2 p2 s := by
  have hv1 : verify_user db u1 p1 = some none := by
    simp [verify_user, h1]
  have hv2 : verify_user db u2 p2 = some none := by
    simp [verify_user, h2, h3]
  refine ⟨?_, ?_, ?_⟩ <;> simp [login, hv1, hv2]

/-- Database with one local user whose stored digest is empty, so any
password fails verification. -/
def DBU : DB :=
  { DB0 with usuarios := [⟨1, "bob", "Admin", none, b64encode (List.replicate 16 0), 1, ""⟩] }

/-- Witness for C7: a missing user and an existing user with a failing
password produce the same failed outcome on a concrete database. -/
theorem C7_no_username_enumeration_witness :
    login DBU "alice" "pw1" emptySession = some (false, emptySession) ∧
    login DBU "bob" "pw2" emptySession = some (false, emptySession) ∧
    login DBU "alice" "pw1" emptySession = login DBU "bob" "pw2" emptySession :=
  C7_no_username_enumeration DBU emptySession "alice" "pw1" "bob" "pw2"
    (by decide) ⟨1, "bob", "Admin", none, b64encode (List.replicate 16 0), 1, ""⟩
    (by decide)
    (pbkdf2_verify_empty_expected "pw2" _ 1 (List.replicate 16 0) (by decide))

theorem takeWhile_append_stop (p : Char → Bool) :
    ∀ (L : List Char) (x : Char) (r : List Char), (∀ c ∈ L, p c = true) → p x = false →
      (L ++ x :: r).takeWhile p = L := by
  intro L
  induction L with
  | nil => intro x r _ hx; simp [List.takeWhile_cons, hx]
  | cons hd tl ih =>
    intro x r hL hx
    have hhd : p hd = true := hL hd (by simp)
    simp only [List.cons_append, List.takeWhile_cons, hhd]
    rw [ih x r (fun c hc => hL c (by simp [hc])) hx]
    simp

theorem dropWhile_append_stop (p : Char → Bool) :
    ∀ (L : List Char) (x : Char) (r : List Char), (∀ c ∈ L, p c = true) → p x = false →
      (L ++ x :: r).dropWhile p = x :: r := by
  intro L
  induction L with
  | nil => intro x r _ hx; simp [List.dropWhile_cons, hx]
  | cons hd tl ih =>
    intro x r hL hx
    have hhd : p hd = true := hL hd (by simp)
    simp only [List.cons_append, List.dropWhile_cons, hhd]
    rw [ih x r (fun c hc => hL c (by simp [hc])) hx]
    simp

theorem studentPat_of_decomp (L D : List Char) (hL : L ≠ [])
    (hLa : ∀ ch ∈ L, ch.isAlpha = true) (hD : D ≠ [])
    (hDa : ∀ ch ∈ D, ch.isDigit = true) :
    studentPat (L ++ '2' :: D) = some ('2' :: D) := by
  have hall : D.all (·.isDigit) = true := List.all_eq_true.mpr hDa
  unfold studentPat
  rw [takeWhile_append_stop _ L '2' D hLa (by decide),
    dropWhile_append_stop _ L '2' D hLa (by decide)]
  simp [hL, hD, hall]

/-- C6: role derivation from the email local part. A local part of letters
followed by a `'2'`-led digit identifier yields `Estudiante` (the spec's
"Student") unless the identifier is in the admin set, in which case `Admin`;
a local part of letters only yields `Docente` ("Faculty"); any other local
part yields the default `Estudiante`. -/
theorem C6_role_derivation
    (s : Session) (A : List String)
    (hA : s "microsoft_admin_students" = some (.sset A))
    (e1 : String) (L D : List Char) (he1 : e1 ≠ "")
    (hdec : localPart e1 = L ++ '2' :: D)
    (hL : L ≠ []) (hLa : ∀ ch ∈ L, ch.isAlpha = true)
    (hD : D ≠ []) (hDa : ∀ ch ∈ D, ch.isDigit = true)
    (e2 : String) (he2 : e2 ≠ "") (h2ne : localPart e2 ≠ [])
    (h2a : ∀ ch ∈ localPart e2, ch.isAlpha = true)
    (e3 : String) (he3 : e3 ≠ "")
    (h3pat : studentPat (localPart e3) = none)
    (h3not : ¬(localPart e3 ≠ [] ∧ ∀ ch ∈ localPart e3, ch.isAlpha = true)) :
    determinar_rol s e1 = (if String.mk ('2' :: D) ∈ A then "Admin" else "Estudiante") ∧
    determinar_rol s e2 = "Docente" ∧
    determinar_rol s e3 = "Estudiante" := by
  refine ⟨?_, ?_, ?_⟩
  · simp only [determinar_rol, if_neg he1, hdec,
      studentPat_of_decomp L D hL hLa hD hDa, get_admin_students, hA]
    by_cases hmem : String.mk ('2' :: D) ∈ A
    · simp [hmem]
    · simp [hmem]
  · have hdrop : (localPart e2).dropWhile (fun x => x.isAlpha) = [] :=
      List.dropWhile_eq_nil_iff.mpr (fun x hx => h2a x hx)
    have hall : (localPart e2).all (fun x => x.isAlpha) = true :=
      List.all_eq_true.mpr h2a
    simp only [determinar_rol, if_neg he2, studentPat, hdrop]
    simp [h2ne, hall]
  · simp only [determinar_rol, if_neg he3, h3pat]
    by_cases hnil : localPart e3 = []
    · simp [hnil]
    · have hnotall : ¬ ∀ ch ∈ localPart e3, ch.isAlpha = true := fun hall =>
        h3not ⟨hnil, hall⟩
      have hfalse : (localPart e3).all (fun x => x.isAlpha) = false := by
        rw [← Bool.not_eq_true, List.all_eq_true]
        exact hnotall
      simp [hfalse]

/-- Witness for C6 at three concrete federated emails: a student-patterned
email whose code is in the admin set, a letters-only faculty email, and a
mixed local part falling to the default. -/
theorem C6_role_derivation_witness :
    determinar_rol (fun k => if k = "microsoft_admin_students"
        then some (.sset ["25837"]) else none) "jua25837@uvg.edu.gt" =
      (if String.mk ('2' :: "5837".data) ∈ ["25837"] then "Admin" else "Estudiante") ∧
    determinar_rol (fun k => if k = "microsoft_admin_students"
        then some (.sset ["25837"]) else none) "perez@uvg.edu.gt" = "Docente" ∧
    determinar_rol (fun k => if k = "microsoft_admin_students"
        then some (.sset ["25837"]) else none) "a1b@uvg.edu.gt" = "Estudiante" :=
  C6_role_derivation (fun k => if k = "microsoft_admin_students"
      then some (.sset ["25837"]) else none) ["25837"] (by decide)
    "jua25837@uvg.edu.gt" "jua".data "5837".data (by decide) (by decide)
    (by decide) (by decide) (by decide) (by decide)
    "perez@uvg.edu.gt" (by decide) (by decide) (by decide)
    "a1b@uvg.edu.gt" (by decide) (by decide) (by decide)

/-- C9: admin-set mutation through the admin page is permitted only to a
session holding the Admin role (the page stops otherwise, mutating nothing);
an admin can never remove their own identifier — the page renders no remove
control for it, so the removal is a no-op — while removing a different admin
identifier succeeds and deletes exactly that identifier from the set.
`remove_admin_by_code` itself is modelled from the spec (it is imported by
the page but absent from `microsoft_auth.py`); the role gate and the
self-removal guard are the page's own source. -/
theorem C9_admin_self_protection
    (s : Session) (A : List String) (email myCode t2 : String)
    (hrole : has_role s ["Admin"] = true)
    (hemail : s "email" = some (.sstr email))
    (hcode : searchStudentCode email.data = some myCode.data)
    (hA : s "microsoft_admin_students" = some (.sset A))
    (hne : t2 ≠ myCode) (ht2 : t2 ∈ A) :
    admin_page_remove s myCode = none ∧
    (admin_page_remove s t2 =
      some (setK s "microsoft_admin_students" (.sset (A.filter (· != t2)))) ∧
     setK s "microsoft_admin_students" (.sset (A.filter (· != t2)))
       "microsoft_admin_students" = some (.sset (A.filter (· != t2)))) ∧
    (∀ (s3 : Session) (code : String), has_role s3 ["Admin"] = false →
      admin_page_remove s3 code = none ∧ admin_page_add s3 code = none) := by
  have hmk : String.mk myCode.data = myCode := rfl
  refine ⟨?_, ⟨?_, ?_⟩, ?_⟩
  · simp [admin_page_remove, hrole, hemail, hcode, hmk]
  · simp [admin_page_remove, hrole, hemail, hcode, hmk, hne,
      remove_admin_by_code, get_admin_students, hA, ht2]
  · simp [setK]
  · intro s3 code h
    constructor
    · simp [admin_page_remove, h]
    · simp [admin_page_add, h]

/-- Admin session used in the C9 witness: logged in with Admin role, a
federated email carrying code 25837, and two admin identifiers in the set. -/
def adminSessionW : Session := fun k =>
  if k = "auth" then some (.sbool true)
  else if k = "role" then some (.sstr "Admin")
  else if k = "email" then some (.sstr "jua25837@uvg.edu.gt")
  else if k = "microsoft_admin_students" then some (.sset ["25837", "29999"])
  else none

/-- Witness for C9: the session's own code cannot be removed, another admin's
code can, and a non-admin session can mutate nothing. -/
theorem C9_admin_self_protection_witness :
    admin_page_remove adminSessionW "25837" = none ∧
    (admin_page_remove adminSessionW "29999" =
      some (setK adminSessionW "microsoft_admin_students"
        (.sset (["25837", "29999"].filter (· != "29999")))) ∧
     setK adminSessionW "microsoft_admin_students"
       (.sset (["25837", "29999"].filter (· != "29999")))
       "microsoft_admin_students" =
         some (.sset (["25837", "29999"].filter (· != "29999")))) ∧
    (∀ (s3 : Session) (code : String), has_role s3 ["Admin"] = false →
      admin_page_remove s3 code = none ∧ admin_page_add s3 code = none) :=
  C9_admin_self_protection adminSessionW ["25837", "29999"] "jua25837@uvg.edu.gt"
    "25837" "29999" (by decide) (by decide) (by decide) (by decide) (by decide)
    (by decide)

/-- C3: with the fresh 16-byte random salt draw modelled as an explicit
argument, hashing a non-empty password at the default 100000 iterations and
verifying it round-trips to `true`; verifying any other password succeeds
exactly when its derived digest collides with the stored one (so any password
whose digest differs — all of them, under the standard PBKDF2
collision-resistance assumption — is rejected); the iteration count is
100000 ≥ 100000 and the stored salt is the full 16 ≥ 16 byte draw; and two
hash calls whose random draws differ store different salts, their digests
differing exactly when the underlying PBKDF2 outputs differ. -/
theorem C3_credential_roundtrip
    (p : String) (salt salt2 : List Nat)
    (hp : p ≠ "")
    (hlen : salt.length = 16) (hbytes : ∀ x ∈ salt, x < 256)
    (hlen2 : salt2.length = 16) (hbytes2 : ∀ x ∈ salt2, x < 256)
    (hne : salt ≠ salt2) :
    (_pbkdf2_verify p (_pbkdf2_hash p salt 100000).salt_b64
        (_pbkdf2_hash p salt 100000).iters (_pbkdf2_hash p salt 100000).hash_b64 =
      some true) ∧
    (∀ q2 : String,
      _pbkdf2_verify q2 (_pbkdf2_hash p salt 100000).salt_b64
          (_pbkdf2_hash p salt 100000).iters (_pbkdf2_hash p salt 100000).hash_b64 =
          some true ↔
        pbkdf2HmacSha256 (strBytes q2) salt 100000 =
          pbkdf2HmacSha256 (strBytes p) salt 100000) ∧
    (_pbkdf2_hash p salt 100000).iters = 100000 ∧
    100000 ≤ (_pbkdf2_hash p salt 100000).iters ∧
    b64decode (_pbkdf2_hash p salt 100000).salt_b64 = some salt ∧
    16 ≤ salt.length ∧
    (_pbkdf2_hash p salt 100000).salt_b64 ≠ (_pbkdf2_hash p salt2 100000).salt_b64 ∧
    ((_pbkdf2_hash p salt 100000).hash_b64 = (_pbkdf2_hash p salt2 100000).hash_b64 ↔
      pbkdf2HmacSha256 (strBytes p) salt 100000 =
        pbkdf2HmacSha256 (strBytes p) salt2 100000) := by
  refine ⟨?_, ?_, rfl, ?_, ?_, ?_, ?_, ?_⟩
  · rw [pbkdf2_verify_hash p p salt 100000 hbytes]
    simp [compare_digest_eq_true_iff]
  · intro q2
    rw [pbkdf2_verify_hash p q2 salt 100000 hbytes]
    simp [compare_digest_eq_true_iff]
  · simp [_pbkdf2_hash]
  · exact b64decode_encode salt hbytes
  · omega
  · intro heq
    exact hne (b64encode_injOn salt salt2 hbytes hbytes2 heq)
  · constructor
    · intro heq
      exact b64encode_injOn _ _ (pbkdf2_lt (strBytes p) salt 100000)
        (pbkdf2_lt (strBytes p) salt2 100000) heq
    · intro heq
      simp only [_pbkdf2_hash]
      rw [heq]

/-- Witness for C3 at a concrete password pair and two concrete 16-byte salt
draws. -/
theorem C3_credential_roundtrip_witness :
    (_pbkdf2_verify "a" (_pbkdf2_hash "a" (List.replicate 16 0) 100000).salt_b64
        (_pbkdf2_hash "a" (List.replicate 16 0) 100000).iters
        (_pbkdf2_hash "a" (List.replicate 16 0) 100000).hash_b64 = some true) ∧
    (∀ q2 : String,
      _pbkdf2_verify q2 (_pbkdf2_hash "a" (List.replicate 16 0) 100000).salt_b64
          (_pbkdf2_hash "a" (List.replicate 16 0) 100000).iters
          (_pbkdf2_hash "a" (List.replicate 16 0) 100000).hash_b64 = some true ↔
        pbkdf2HmacSha256 (strBytes q2) (List.replicate 16 0) 100000 =
          pbkdf2HmacSha256 (strBytes "a") (List.replicate 16 0) 100000) ∧
    (_pbkdf2_hash "a" (List.replicate 16 0) 100000).iters = 100000 ∧
    100000 ≤ (_pbkdf2_hash "a" (List.replicate 16 0) 100000).iters ∧
    b64decode (_pbkdf2_hash "a" (List.replicate 16 0) 100000).salt_b64 =
      some (List.replicate 16 0) ∧
    16 ≤ (List.replicate 16 0 : List Nat).length ∧
    (_pbkdf2_hash "a" (List.replicate 16 0) 100000).salt_b64 ≠
      (_pbkdf2_hash "a" (List.range 16) 100000).salt_b64 ∧
    ((_pbkdf2_hash "a" (List.replicate 16 0) 100000).hash_b64 =
       (_pbkdf2_hash "a" (List.range 16) 100000).hash_b64 ↔
      pbkdf2HmacSha256 (strBytes "a") (List.replicate 16 0) 100000 =
        pbkdf2HmacSha256 (strBytes "a") (List.range 16) 100000) :=
  C3_credential_roundtrip "a" (List.replicate 16 0) (List.range 16)
    (by decide) (by decide) (by decide) (by decide) (by decide) (by decide)
